import Mathlib

/-!
Verification development for the schema-canvas repository's translation layer:
the JSON codec (json-exporter.ts), the SQL exporter (sql-exporter.ts), the ORM
exporters and export dispatcher (export-manager.ts, prisma-exporter.ts), the
Django model importer (django-importer.ts) and the auto-layout engine
(auto-layout.ts), shallowly embedded over the repository's schema data model.

Modelling conventions, used throughout:
* JavaScript strings are Lean `String`s (operations restricted to ASCII where
  the code only meets ASCII); JS numbers are `Rat` (IEEE rounding is not
  modelled; `x / 0` is `0` in `Rat` where JS yields an infinity — every claim
  proved below is independent of that corner);
* `undefined`/optional fields are `Option`; JS truthiness is modelled
  explicitly (`none`, `false`, `0`, `""` and JSON `null` are falsy);
* thrown exceptions are `Except.error`; the text of engine-generated
  `TypeError`s is fixed to the V8 wording — only their distinctness from the
  repository's own error strings is ever used;
* `Date.now()` / `new Date()` values are passed in as explicit parameters; a
  `Date` built from a string is identified with that string.
-/

namespace SchemaCanvas

/-! ## Generic string/list helpers (JS semantics) -/

/-- JS `\s`-style whitespace restricted to ASCII. -/
def isJsWsChar (c : Char) : Bool :=
  c = ' ' || c = '\t' || c = '\n' || c = '\r' || c = '\x0b' || c = '\x0c'

/-- JS `\w` word characters: `[A-Za-z0-9_]`. -/
def isWordChar (c : Char) : Bool :=
  (c ≥ 'a' && c ≤ 'z') || (c ≥ 'A' && c ≤ 'Z') || (c ≥ '0' && c ≤ '9') || c = '_'

def isDigitChar (c : Char) : Bool := c ≥ '0' && c ≤ '9'

def isHexChar (c : Char) : Bool :=
  isDigitChar c || (c ≥ 'a' && c ≤ 'f') || (c ≥ 'A' && c ≤ 'F')

/-- Does list `l` start with list `p`? -/
def startsWithL : List Char → List Char → Bool
  | _, [] => true
  | [], _ :: _ => false
  | c :: cs, p :: ps => c = p && startsWithL cs ps

/-- Does list `l` contain `p` as a contiguous sublist (JS `String.includes`)? -/
def containsSubL : List Char → List Char → Bool
  | [], p => p = []
  | c :: cs, p => startsWithL (c :: cs) p || containsSubL cs p

def containsSub (s p : String) : Bool := containsSubL s.toList p.toList

/-- ASCII upper-casing (JS `toUpperCase` on the ASCII inputs met here). -/
def asciiUpper (s : String) : String := s.map Char.toUpper

/-- ASCII lower-casing (JS `toLowerCase` on the ASCII inputs met here). -/
def asciiLower (s : String) : String := s.map Char.toLower

/-- JS `String.trim` (ASCII whitespace). -/
def jsTrimL (l : List Char) : List Char :=
  ((l.dropWhile isJsWsChar).reverse.dropWhile isJsWsChar).reverse

def jsTrim (s : String) : String := String.mk (jsTrimL s.toList)

/-! Model of "`Number(s)` is not `NaN`", the test the exporters use on default
values.  `Number` trims whitespace, maps the empty string to `0`, accepts
`Infinity` with optional sign, decimal literals with optional fraction and
exponent, and unsigned `0x`/`0o`/`0b` radix literals. -/

def jsExpOk : List Char → Bool
  | [] => true
  | e :: r =>
    (e = 'e' || e = 'E') &&
      (match r with
       | '+' :: r2 => r2 ≠ [] && r2.all isDigitChar
       | '-' :: r2 => r2 ≠ [] && r2.all isDigitChar
       | _ => r ≠ [] && r.all isDigitChar)

def jsDecimalLit (l : List Char) : Bool :=
  let ip := l.takeWhile isDigitChar
  let r1 := l.drop ip.length
  if ip = [] then
    match r1 with
    | '.' :: r2 =>
      let fr := r2.takeWhile isDigitChar
      fr ≠ [] && jsExpOk (r2.drop fr.length)
    | _ => false
  else
    match r1 with
    | '.' :: r2 =>
      let fr := r2.takeWhile isDigitChar
      jsExpOk (r2.drop fr.length)
    | _ => jsExpOk r1

def jsUnsignedNumeric (l : List Char) : Bool :=
  l = "Infinity".toList || jsDecimalLit l

def jsRadixOrDecimal (l : List Char) : Bool :=
  if startsWithL l "0x".toList || startsWithL l "0X".toList then
    let r := l.drop 2
    r ≠ [] && r.all isHexChar
  else if startsWithL l "0o".toList || startsWithL l "0O".toList then
    let r := l.drop 2
    r ≠ [] && r.all (fun c => c ≥ '0' && c ≤ '7')
  else if startsWithL l "0b".toList || startsWithL l "0B".toList then
    let r := l.drop 2
    r ≠ [] && r.all (fun c => c = '0' || c = '1')
  else jsUnsignedNumeric l

/-- `true` iff JS `Number(s)` is not `NaN`. -/
def jsIsNumeric (s : String) : Bool :=
  let l := jsTrimL s.toList
  if l = [] then true
  else
    match l with
    | '+' :: rest => jsUnsignedNumeric rest
    | '-' :: rest => jsUnsignedNumeric rest
    | _ => jsRadixOrDecimal l

/-- JS `a || b` on possibly-absent strings (`some ""` is falsy). -/
def jsOrStr (a : Option String) (b : Option String) : Option String :=
  match a with
  | some v => if v = "" then b else some v
  | none => b

/-! ## The schema data model (src/features/schema/types/schema.types.ts)

`ColumnType` and `RelationshipType` are open string tags in the source (a
union of string literals consumed as plain strings by every exporter), so they
are embedded as `String`. -/

structure Pos where
  x : Rat
  y : Rat
deriving DecidableEq

structure ForeignKey where
  tableId : String
  columnId : String
  onDelete : Option String
  onUpdate : Option String
deriving DecidableEq

structure Column where
  id : String
  name : String
  type : String
  nullable : Bool
  primaryKey : Bool
  unique : Bool
  defaultValue : Option String
  foreignKey : Option ForeignKey
  description : Option String
deriving DecidableEq

structure Table where
  id : String
  name : String
  position : Pos
  columns : List Column
  description : Option String
  color : Option String
deriving DecidableEq

structure Relationship where
  id : String
  sourceTableId : String
  sourceColumnId : String
  targetTableId : String
  targetColumnId : String
  type : String
  name : Option String
  onDelete : Option String
  onUpdate : Option String
deriving DecidableEq

structure Schema where
  id : String
  name : String
  description : Option String
  tables : List Table
  relationships : List Relationship
  createdAt : String
  updatedAt : String
  version : Rat
deriving DecidableEq

/-- The fixed `COLUMN_TYPES` enumeration (src/constants/schema.ts). -/
def COLUMN_TYPES : List String :=
  ["string", "text", "integer", "bigint", "float", "decimal", "boolean",
   "date", "datetime", "timestamp", "time", "json", "jsonb", "uuid",
   "binary", "enum", "array"]

/-- The `EXPORT_FORMATS` enumeration (src/constants/schema.ts). -/
def EXPORT_FORMATS : List String :=
  ["json", "sql", "prisma", "django", "laravel", "typeorm"]

/-! ## SQL exporter (src/lib/export/sql-exporter.ts) -/

inductive SQLDialect where
  | postgresql
  | mysql
  | sqlite
  | sqlserver
deriving DecidableEq

def dialectName : SQLDialect → String
  | .postgresql => "postgresql"
  | .mysql => "mysql"
  | .sqlite => "sqlite"
  | .sqlserver => "sqlserver"

def pgTypeMap : List (String × String) :=
  [("string", "VARCHAR(255)"), ("text", "TEXT"), ("integer", "INTEGER"),
   ("bigint", "BIGINT"), ("float", "FLOAT"), ("decimal", "DECIMAL(10,2)"),
   ("boolean", "BOOLEAN"), ("date", "DATE"), ("datetime", "TIMESTAMP"),
   ("timestamp", "TIMESTAMP"), ("time", "TIME"), ("json", "JSON"),
   ("jsonb", "JSONB"), ("uuid", "UUID"), ("binary", "BYTEA"),
   ("enum", "VARCHAR(50)"), ("array", "TEXT[]")]

def mysqlTypeMap : List (String × String) :=
  [("string", "VARCHAR(255)"), ("text", "TEXT"), ("integer", "INT"),
   ("bigint", "BIGINT"), ("float", "FLOAT"), ("decimal", "DECIMAL(10,2)"),
   ("boolean", "BOOLEAN"), ("date", "DATE"), ("datetime", "DATETIME"),
   ("timestamp", "TIMESTAMP"), ("time", "TIME"), ("json", "JSON"),
   ("jsonb", "JSON"), ("uuid", "CHAR(36)"), ("binary", "BLOB"),
   ("enum", "ENUM()"), ("array", "JSON")]

def sqliteTypeMap : List (String × String) :=
  [("string", "TEXT"), ("text", "TEXT"), ("integer", "INTEGER"),
   ("bigint", "INTEGER"), ("float", "REAL"), ("decimal", "REAL"),
   ("boolean", "INTEGER"), ("date", "TEXT"), ("datetime", "TEXT"),
   ("timestamp", "TEXT"), ("time", "TEXT"), ("json", "TEXT"),
   ("jsonb", "TEXT"), ("uuid", "TEXT"), ("binary", "BLOB"),
   ("enum", "TEXT"), ("array", "TEXT")]

def sqlserverTypeMap : List (String × String) :=
  [("string", "NVARCHAR(255)"), ("text", "NVARCHAR(MAX)"), ("integer", "INT"),
   ("bigint", "BIGINT"), ("float", "FLOAT"), ("decimal", "DECIMAL(10,2)"),
   ("boolean", "BIT"), ("date", "DATE"), ("datetime", "DATETIME2"),
   ("timestamp", "DATETIME2"), ("time", "TIME"), ("json", "NVARCHAR(MAX)"),
   ("jsonb", "NVARCHAR(MAX)"), ("uuid", "UNIQUEIDENTIFIER"),
   ("binary", "VARBINARY(MAX)"), ("enum", "NVARCHAR(50)"),
   ("array", "NVARCHAR(MAX)")]

def sqlTypeMap : SQLDialect → List (String × String)
  | .postgresql => pgTypeMap
  | .mysql => mysqlTypeMap
  | .sqlite => sqliteTypeMap
  | .sqlserver => sqlserverTypeMap

/-- `typeMap[dialect][type] || typeMap[dialect]['string']` — a missing entry
(`undefined`) and a falsy (empty) entry both fall back. -/
def mapColumnType (type : String) (dialect : SQLDialect) : String :=
  match List.lookup type (sqlTypeMap dialect) with
  | some v => if v = "" then (List.lookup "string" (sqlTypeMap dialect)).getD "" else v
  | none => (List.lookup "string" (sqlTypeMap dialect)).getD ""

def formatTableName (name : String) (dialect : SQLDialect) : String :=
  if dialect = .mysql then "\x60" ++ name ++ "\x60" else "\"" ++ name ++ "\""

def formatColumnName (name : String) (dialect : SQLDialect) : String :=
  if dialect = .mysql then "\x60" ++ name ++ "\x60" else "\"" ++ name ++ "\""

def formatDefaultValue (value : String) (dialect : SQLDialect) : String :=
  if value = "" then ""
  else if asciiUpper value = "CURRENT_TIMESTAMP" then "DEFAULT CURRENT_TIMESTAMP"
  else if asciiUpper value = "NULL" then "DEFAULT NULL"
  else if jsIsNumeric value && jsTrim value ≠ "" then "DEFAULT " ++ value
  else if asciiLower value = "true" then
    (if dialect = .postgresql then "DEFAULT TRUE" else "DEFAULT 1")
  else if asciiLower value = "false" then
    (if dialect = .postgresql then "DEFAULT FALSE" else "DEFAULT 0")
  else "DEFAULT \x27" ++ value.replace "\x27" "\x27\x27" ++ "\x27"

/-- Number of columns of `t` marked `primaryKey`. -/
def pkCount (t : Table) : Nat := (t.columns.filter (fun c => c.primaryKey)).length

/-- The condition under which a column definition receives an inline
`PRIMARY KEY` suffix: the column is a primary key, it is the table's only one,
and the dialect is not SQL Server (whose single-column branch is the empty
"handled separately" arm). -/
def inlinePkApplies (t : Table) (c : Column) (d : SQLDialect) : Bool :=
  c.primaryKey && pkCount t = 1 && d ≠ SQLDialect.sqlserver

/-- One rendered column definition inside `CREATE TABLE`. -/
def columnDef (t : Table) (c : Column) (d : SQLDialect) : String :=
  let base := formatColumnName c.name d ++ " " ++ mapColumnType c.type d
  let base := if c.nullable then base else base ++ " NOT NULL"
  let base := if c.unique then base ++ " UNIQUE" else base
  let base :=
    match c.defaultValue with
    | some v => if v = "" then base else base ++ " " ++ formatDefaultValue v d
    | none => base
  if inlinePkApplies t c d then base ++ " PRIMARY KEY" else base

/-- The table-level `PRIMARY KEY (col1, col2, ...)` text listing the columns
marked `primaryKey`. -/
def compositePkConstraint (t : Table) (d : SQLDialect) : String :=
  "PRIMARY KEY (" ++
    String.intercalate ", "
      ((t.columns.filter (fun c => c.primaryKey)).map (fun c => formatColumnName c.name d)) ++
    ")"

/-- The table-level constraint list of a `CREATE TABLE` (composite primary
keys, and SQL Server's single-column primary key). -/
def tableConstraints (t : Table) (d : SQLDialect) : List String :=
  let pkc := t.columns.filter (fun c => c.primaryKey)
  if pkc.length > 1 || (pkc.length = 1 && d = SQLDialect.sqlserver) then
    [compositePkConstraint t d]
  else []

/-- The four statements pushed per table: the `CREATE TABLE` opener, the
joined column/constraint body, the closer and a blank line. -/
def createTableChunk (d : SQLDialect) (t : Table) : List String :=
  let cols := t.columns.map (fun c => columnDef t c d)
  let constraints := tableConstraints t d
  ["CREATE TABLE " ++ formatTableName t.name d ++ " (",
   "  " ++ String.intercalate ",\n  " cols ++
     (if constraints.length > 0 then ",\n  " ++ String.intercalate ",\n  " constraints else ""),
   ");",
   ""]

def tableHasForeignKeys (t : Table) : Bool :=
  t.columns.any (fun c => c.foreignKey.isSome)

/-- The dependency sort: JS `Array.sort` with the has-foreign-keys comparator
is stable (ES2019), hence equal to this stable partition placing tables
without foreign keys first. -/
def sortedTables (schema : Schema) : List Table :=
  schema.tables.filter (fun t => !tableHasForeignKeys t) ++
    schema.tables.filter (fun t => tableHasForeignKeys t)

/-- The `ALTER TABLE ... FOREIGN KEY` statement derived from one column-level
foreign key, `none` when the referenced table/column does not resolve (or the
resolved column's name is empty, which the `if (targetColumnName)` truthiness
check also skips). -/
def fkAlterFor (schema : Schema) (d : SQLDialect) (t : Table) (c : Column) : Option String :=
  match c.foreignKey with
  | none => none
  | some fk =>
    match schema.tables.find? (fun tb => tb.id = fk.tableId) with
    | none => none
    | some target =>
      match target.columns.find? (fun tc => tc.id = fk.columnId) with
      | none => none
      | some tcol =>
        if tcol.name = "" then none
        else
          let constraintName := "fk_" ++ t.name ++ "_" ++ c.name ++ "_" ++ target.name
          let constraintName :=
            if d = .mysql then String.mk (constraintName.toList.take 64) else constraintName
          let stmt :=
            "ALTER TABLE " ++ formatTableName t.name d ++
            " ADD CONSTRAINT " ++ formatColumnName constraintName d ++
            " FOREIGN KEY (" ++ formatColumnName c.name d ++ ")" ++
            " REFERENCES " ++ formatTableName target.name d ++
            "(" ++ formatColumnName tcol.name d ++ ")"
          let stmt :=
            match fk.onDelete with
            | some v => if v ≠ "" && v ≠ "NO ACTION" then stmt ++ " ON DELETE " ++ v else stmt
            | none => stmt
          let stmt :=
            match fk.onUpdate with
            | some v => if v ≠ "" && v ≠ "NO ACTION" then stmt ++ " ON UPDATE " ++ v else stmt
            | none => stmt
          some (stmt ++ ";")

/-- The `ALTER TABLE` statement derived from one schema-level relationship:
emitted only when source table, target table, source column and target column
all resolve and the source column carries no column-level foreign key. -/
def relAlterFor (schema : Schema) (d : SQLDialect) (r : Relationship) : Option String :=
  match schema.tables.find? (fun tb => tb.id = r.sourceTableId) with
  | none => none
  | some st =>
    match schema.tables.find? (fun tb => tb.id = r.targetTableId) with
    | none => none
    | some tt =>
      match st.columns.find? (fun c => c.id = r.sourceColumnId) with
      | none => none
      | some sc =>
        match tt.columns.find? (fun c => c.id = r.targetColumnId) with
        | none => none
        | some tc =>
          if sc.foreignKey.isSome then none
          else
            let constraintName := "rel_" ++ st.name ++ "_" ++ tt.name
            let constraintName :=
              if d = .mysql then String.mk (constraintName.toList.take 64) else constraintName
            let stmt :=
              "ALTER TABLE " ++ formatTableName st.name d ++
              " ADD CONSTRAINT " ++ formatColumnName constraintName d ++
              " FOREIGN KEY (" ++ formatColumnName sc.name d ++ ")" ++
              " REFERENCES " ++ formatTableName tt.name d ++
              "(" ++ formatColumnName tc.name d ++ ")"
            let stmt :=
              match r.onDelete with
              | some v => if v ≠ "" && v ≠ "NO ACTION" then stmt ++ " ON DELETE " ++ v else stmt
              | none => stmt
            let stmt :=
              match r.onUpdate with
              | some v => if v ≠ "" && v ≠ "NO ACTION" then stmt ++ " ON UPDATE " ++ v else stmt
              | none => stmt
            some (stmt ++ ";")

/-- The full statement list of `exportToSQL` (`now` models the
`new Date().toISOString()` header timestamp). -/
def exportToSQLStatements (schema : Schema) (d : SQLDialect) (now : String) : List String :=
  ["-- Schema: " ++ schema.name,
   "-- Generated: " ++ now,
   "-- Dialect: " ++ asciiUpper (dialectName d),
   ""]
  ++ (sortedTables schema).flatMap (createTableChunk d)
  ++ schema.tables.flatMap (fun t => t.columns.filterMap (fun c => fkAlterFor schema d t c))
  ++ schema.relationships.filterMap (fun r => relAlterFor schema d r)

def exportToSQL (schema : Schema) (d : SQLDialect) (now : String) : String :=
  String.intercalate "\n" (exportToSQLStatements schema d now)

/-! ## JSON values

The codec is embedded at the level of parsed JSON values: `exportToJSON`
produces the value that `JSON.parse(JSON.stringify(exportData))` denotes
(object keys whose value is `undefined` are therefore simply absent), and
`importFromJSON` consumes such a value.  JS `undefined` is represented by the
absence of a key / `Option.none`, never by a `Json` constructor. -/

inductive Json where
  | null
  | bool (b : Bool)
  | num (q : Rat)
  | str (s : String)
  | arr (elems : List Json)
  | obj (fields : List (String × Json))

mutual

def Json.decEq : (a b : Json) → Decidable (a = b)
  | .null, .null => .isTrue rfl
  | .bool x, .bool y =>
    if h : x = y then .isTrue (congrArg Json.bool h)
    else .isFalse (fun hh => h (by injection hh))
  | .num x, .num y =>
    if h : x = y then .isTrue (congrArg Json.num h)
    else .isFalse (fun hh => h (by injection hh))
  | .str x, .str y =>
    if h : x = y then .isTrue (congrArg Json.str h)
    else .isFalse (fun hh => h (by injection hh))
  | .arr xs, .arr ys =>
    match Json.decEqList xs ys with
    | .isTrue h => .isTrue (congrArg Json.arr h)
    | .isFalse h => .isFalse (fun hh => h (by injection hh))
  | .obj xs, .obj ys =>
    match Json.decEqFields xs ys with
    | .isTrue h => .isTrue (congrArg Json.obj h)
    | .isFalse h => .isFalse (fun hh => h (by injection hh))
  | .null, .bool _ => .isFalse (fun h => nomatch h)
  | .null, .num _ => .isFalse (fun h => nomatch h)
  | .null, .str _ => .isFalse (fun h => nomatch h)
  | .null, .arr _ => .isFalse (fun h => nomatch h)
  | .null, .obj _ => .isFalse (fun h => nomatch h)
  | .bool _, .null => .isFalse (fun h => nomatch h)
  | .bool _, .num _ => .isFalse (fun h => nomatch h)
  | .bool _, .str _ => .isFalse (fun h => nomatch h)
  | .bool _, .arr _ => .isFalse (fun h => nomatch h)
  | .bool _, .obj _ => .isFalse (fun h => nomatch h)
  | .num _, .null => .isFalse (fun h => nomatch h)
  | .num _, .bool _ => .isFalse (fun h => nomatch h)
  | .num _, .str _ => .isFalse (fun h => nomatch h)
  | .num _, .arr _ => .isFalse (fun h => nomatch h)
  | .num _, .obj _ => .isFalse (fun h => nomatch h)
  | .str _, .null => .isFalse (fun h => nomatch h)
  | .str _, .bool _ => .isFalse (fun h => nomatch h)
  | .str _, .num _ => .isFalse (fun h => nomatch h)
  | .str _, .arr _ => .isFalse (fun h => nomatch h)
  | .str _, .obj _ => .isFalse (fun h => nomatch h)
  | .arr _, .null => .isFalse (fun h => nomatch h)
  | .arr _, .bool _ => .isFalse (fun h => nomatch h)
  | .arr _, .num _ => .isFalse (fun h => nomatch h)
  | .arr _, .str _ => .isFalse (fun h => nomatch h)
  | .arr _, .obj _ => .isFalse (fun h => nomatch h)
  | .obj _, .null => .isFalse (fun h => nomatch h)
  | .obj _, .bool _ => .isFalse (fun h => nomatch h)
  | .obj _, .num _ => .isFalse (fun h => nomatch h)
  | .obj _, .str _ => .isFalse (fun h => nomatch h)
  | .obj _, .arr _ => .isFalse (fun h => nomatch h)

def Json.decEqList : (a b : List Json) → Decidable (a = b)
  | [], [] => .isTrue rfl
  | [], _ :: _ => .isFalse (fun h => nomatch h)
  | _ :: _, [] => .isFalse (fun h => nomatch h)
  | x :: xs, y :: ys =>
    match Json.decEq x y with
    | .isFalse h => .isFalse (fun hh => by injection hh with h1 h2; exact h h1)
    | .isTrue h1 =>
      match Json.decEqList xs ys with
      | .isTrue h2 => .isTrue (by rw [h1, h2])
      | .isFalse h => .isFalse (fun hh => by injection hh with hx hxs; exact h hxs)

def Json.decEqFields : (a b : List (String × Json)) → Decidable (a = b)
  | [], [] => .isTrue rfl
  | [], _ :: _ => .isFalse (fun h => nomatch h)
  | _ :: _, [] => .isFalse (fun h => nomatch h)
  | (k1, v1) :: xs, (k2, v2) :: ys =>
    if hk : k1 = k2 then
      match Json.decEq v1 v2 with
      | .isFalse h => .isFalse (fun hh => by
          injection hh with hp ht
          exact h (congrArg Prod.snd hp))
      | .isTrue hv =>
        match Json.decEqFields xs ys with
        | .isTrue ht => .isTrue (by rw [hk, hv, ht])
        | .isFalse h => .isFalse (fun hh => by injection hh with hp ht; exact h ht)
    else .isFalse (fun hh => by
      injection hh with hp ht
      exact hk (congrArg Prod.fst hp))

end

instance : DecidableEq Json := Json.decEq

/-- JS property access `v[k]` yielding possibly-`undefined`: a lookup on
objects, `undefined` on every other non-null value.  (Access on `null` throws
and is handled explicitly at each use site.) -/
def jGet : Json → String → Option Json
  | .obj fs, k => fs.lookup k
  | _, _ => none

/-- JS truthiness of a JSON value (`NaN` is not representable here). -/
def jTruthy : Json → Bool
  | .null => false
  | .bool b => b
  | .num q => q ≠ 0
  | .str s => s ≠ ""
  | .arr _ => true
  | .obj _ => true

/-- JS `a || b` where `a` is a possibly-absent JSON value. -/
def jsOrJson (a : Option Json) (b : Json) : Json :=
  match a with
  | some v => if jTruthy v then v else b
  | none => b

/-- Optional-chain access `data.k1?.k2`. -/
def jGetChain (data : Json) (k1 k2 : String) : Option Json :=
  match jGet data k1 with
  | none => none
  | some m => if m = Json.null then none else jGet m k2

def optStrField (k : String) : Option String → List (String × Json)
  | some v => [(k, Json.str v)]
  | none => []

/-! ## JSON exporter (src/lib/export/json-exporter.ts, `exportToJSON`) -/

def posToJson (p : Pos) : Json :=
  Json.obj [("x", Json.num p.x), ("y", Json.num p.y)]

def columnToJson (c : Column) : Json :=
  Json.obj
    ([("id", Json.str c.id), ("name", Json.str c.name), ("type", Json.str c.type),
      ("nullable", Json.bool c.nullable), ("primaryKey", Json.bool c.primaryKey),
      ("unique", Json.bool c.unique)]
     ++ optStrField "defaultValue" c.defaultValue
     ++ optStrField "description" c.description
     ++ (match c.foreignKey with
         | some fk =>
           [("foreignKey", Json.obj
              ([("tableId", Json.str fk.tableId), ("columnId", Json.str fk.columnId)]
               ++ optStrField "onDelete" fk.onDelete
               ++ optStrField "onUpdate" fk.onUpdate))]
         | none => []))

def tableToJson (includePositions : Bool) (t : Table) : Json :=
  Json.obj
    ([("id", Json.str t.id), ("name", Json.str t.name)]
     ++ optStrField "description" t.description
     ++ (if includePositions then [("position", posToJson t.position)] else [])
     ++ [("columns", Json.arr (t.columns.map columnToJson))])

def relationshipToJson (r : Relationship) : Json :=
  Json.obj
    ([("id", Json.str r.id)]
     ++ optStrField "name" r.name
     ++ [("sourceTableId", Json.str r.sourceTableId),
         ("sourceColumnId", Json.str r.sourceColumnId),
         ("targetTableId", Json.str r.targetTableId),
         ("targetColumnId", Json.str r.targetColumnId),
         ("type", Json.str r.type)]
     ++ optStrField "onDelete" r.onDelete
     ++ optStrField "onUpdate" r.onUpdate)

/-- The export envelope, as a JSON value (`now` models
`new Date().toISOString()` for `exportedAt`). -/
def exportToJSONVal (schema : Schema) (includePositions : Bool) (now : String) : Json :=
  Json.obj
    [("version", Json.str "1.0.0"),
     ("metadata", Json.obj
       ([("name", Json.str schema.name)]
        ++ optStrField "description" schema.description
        ++ [("createdAt", Json.str schema.createdAt),
            ("updatedAt", Json.str schema.updatedAt),
            ("exportedAt", Json.str now)])),
     ("tables", Json.arr (schema.tables.map (tableToJson includePositions))),
     ("relationships", Json.arr (schema.relationships.map relationshipToJson))]

/-! ## JSON importer (src/lib/export/json-exporter.ts, `importFromJSON`)

The importer copies whatever values are present without validating their
shapes, so the imported schema's fields are (possibly absent) JSON values.
`Date` objects built by `new Date(x)` are identified with their constructor
argument `x`; the bare `new Date()` used when a metadata timestamp is missing
is identified with the `now` parameter. -/

structure JForeignKey where
  tableId : Option Json
  columnId : Option Json
  onDelete : Option Json
  onUpdate : Option Json
deriving DecidableEq

structure JColumn where
  id : Option Json
  name : Option Json
  type : Option Json
  nullable : Option Json
  primaryKey : Option Json
  unique : Option Json
  defaultValue : Option Json
  description : Option Json
  foreignKey : Option JForeignKey
deriving DecidableEq

structure JTable where
  id : Option Json
  name : Option Json
  position : Json
  description : Option Json
  columns : List JColumn
deriving DecidableEq

structure JRelationship where
  id : Option Json
  name : Option Json
  sourceTableId : Option Json
  sourceColumnId : Option Json
  targetTableId : Option Json
  targetColumnId : Option Json
  type : Option Json
  onDelete : Option Json
  onUpdate : Option Json
deriving DecidableEq

structure JSchema where
  id : Json
  name : Json
  description : Option Json
  tables : List JTable
  relationships : List JRelationship
  createdAt : Json
  updatedAt : Json
  version : Json
deriving DecidableEq

/-- `array.map(fn)` where `fn` may throw: left to right, first error
aborts. -/
def mapExcept {α β : Type} (f : α → Except String β) : List α → Except String (List β)
  | [] => Except.ok []
  | x :: xs =>
    match f x with
    | Except.error e => Except.error e
    | Except.ok y =>
      match mapExcept f xs with
      | Except.error e => Except.error e
      | Except.ok ys => Except.ok (y :: ys)

/-- Engine `TypeError` text for property access on `null` (V8 wording; only
its difference from the repository's own error strings is ever relied on). -/
def nullReadErr (k : String) : String :=
  "Cannot read properties of null (reading \x27" ++ k ++ "\x27)"

def jImportColumn (j : Json) : Except String JColumn :=
  if j = Json.null then .error (nullReadErr "id")
  else .ok
    { id := jGet j "id", name := jGet j "name", type := jGet j "type",
      nullable := jGet j "nullable", primaryKey := jGet j "primaryKey",
      unique := jGet j "unique", defaultValue := jGet j "defaultValue",
      description := jGet j "description",
      foreignKey :=
        match jGet j "foreignKey" with
        | some fk =>
          if jTruthy fk then
            some { tableId := jGet fk "tableId", columnId := jGet fk "columnId",
                   onDelete := jGet fk "onDelete", onUpdate := jGet fk "onUpdate" }
          else none
        | none => none }

def defaultPosJson : Json := Json.obj [("x", Json.num 0), ("y", Json.num 0)]

/-- `table.columns.map(...)`: throws unless `columns` is an array. -/
def jImportColumns (j : Json) : Except String (List JColumn) :=
  match jGet j "columns" with
  | some (Json.arr cs) => mapExcept jImportColumn cs
  | some Json.null => .error (nullReadErr "map")
  | some _ => .error "table.columns.map is not a function"
  | none => .error "Cannot read properties of undefined (reading \x27map\x27)"

def jImportTable (j : Json) : Except String JTable :=
  if j = Json.null then .error (nullReadErr "id")
  else
    match jImportColumns j with
    | .error e => .error e
    | .ok cols => .ok
      { id := jGet j "id", name := jGet j "name",
        position := jsOrJson (jGet j "position") defaultPosJson,
        description := jGet j "description",
        columns := cols }

def jImportRelationship (j : Json) : Except String JRelationship :=
  if j = Json.null then .error (nullReadErr "id")
  else .ok
    { id := jGet j "id", name := jGet j "name",
      sourceTableId := jGet j "sourceTableId", sourceColumnId := jGet j "sourceColumnId",
      targetTableId := jGet j "targetTableId", targetColumnId := jGet j "targetColumnId",
      type := jGet j "type", onDelete := jGet j "onDelete", onUpdate := jGet j "onUpdate" }

/-- `(data.relationships || []).map(...)`. -/
def jImportRelationships (data : Json) : Except String (List JRelationship) :=
  match jGet data "relationships" with
  | some v =>
    if jTruthy v then
      match v with
      | Json.arr rs => mapExcept jImportRelationship rs
      | _ => .error "data.relationships.map is not a function"
    else .ok []
  | none => .ok []

/-- The body of `importFromJSON`'s `try` block, on an already-parsed JSON
value. -/
def importBody (data : Json) (now : String) : Except String JSchema :=
  if data = Json.null then .error (nullReadErr "tables")
  else
    match jGet data "tables" with
    | some (Json.arr ts) =>
      match mapExcept jImportTable ts with
      | .error e => .error e
      | .ok tables =>
        match jImportRelationships data with
        | .error e => .error e
        | .ok rels => .ok
          { id := jsOrJson (jGetChain data "metadata" "name") (Json.str "Imported Schema"),
            name := jsOrJson (jGetChain data "metadata" "name") (Json.str "Imported Schema"),
            description := jGetChain data "metadata" "description",
            tables := tables,
            relationships := rels,
            createdAt :=
              match jGetChain data "metadata" "createdAt" with
              | some v => if jTruthy v then v else Json.str now
              | none => Json.str now,
            updatedAt :=
              match jGetChain data "metadata" "updatedAt" with
              | some v => if jTruthy v then v else Json.str now
              | none => Json.str now,
            version := jsOrJson (jGet data "version") (Json.num 1) }
    | _ => .error "Invalid JSON format: missing tables array"

instance {ε α : Type} [DecidableEq ε] [DecidableEq α] : DecidableEq (Except ε α)
  | .ok a, .ok b =>
    if h : a = b then .isTrue (by rw [h]) else .isFalse (fun hh => h (by injection hh))
  | .error a, .error b =>
    if h : a = b then .isTrue (by rw [h]) else .isFalse (fun hh => h (by injection hh))
  | .ok _, .error _ => .isFalse (fun h => nomatch h)
  | .error _, .ok _ => .isFalse (fun h => nomatch h)

/-- `importFromJSON` on an already-parsed JSON value: the surrounding
`catch` wraps every thrown message. -/
def importFromJSONVal (data : Json) (now : String) : Except String JSchema :=
  match importBody data now with
  | .ok s => .ok s
  | .error e => .error ("Failed to import JSON: " ++ e)

/-! ## Serialisation of JSON values

`JSON.stringify(exportData, null, 2)` pretty-printing; the textual rendering
of non-integral numbers is schematic (no claim inspects rendered text). -/

def jsonEscapeChar (c : Char) : String :=
  if c = '"' then "\\\""
  else if c = '\\' then "\\\\"
  else if c = '\n' then "\\n"
  else if c = '\r' then "\\r"
  else if c = '\t' then "\\t"
  else if c = '\x08' then "\\b"
  else if c = '\x0c' then "\\f"
  else String.singleton c

def jsonEscape (s : String) : String :=
  String.join (s.toList.map jsonEscapeChar)

def spacesStr (n : Nat) : String := String.mk (List.replicate n ' ')

def renderRat (q : Rat) : String :=
  if q.den = 1 then toString q.num else toString q.num ++ "/" ++ toString q.den

mutual

def Json.render : Nat → Json → String
  | _, .null => "null"
  | _, .bool b => if b then "true" else "false"
  | _, .num q => renderRat q
  | _, .str s => "\"" ++ jsonEscape s ++ "\""
  | ind, .arr xs =>
    if xs.isEmpty then "[]"
    else "[\n" ++ String.intercalate ",\n" (Json.renderList (ind + 2) xs) ++
      "\n" ++ spacesStr ind ++ "]"
  | ind, .obj fs =>
    if fs.isEmpty then "\x7b\x7d"
    else "\x7b\n" ++ String.intercalate ",\n" (Json.renderFields (ind + 2) fs) ++
      "\n" ++ spacesStr ind ++ "\x7d"

def Json.renderList : Nat → List Json → List String
  | _, [] => []
  | ind, x :: xs => (spacesStr ind ++ Json.render ind x) :: Json.renderList ind xs

def Json.renderFields : Nat → List (String × Json) → List String
  | _, [] => []
  | ind, (k, v) :: fs =>
    (spacesStr ind ++ "\"" ++ jsonEscape k ++ "\": " ++ Json.render ind v) ::
      Json.renderFields ind fs

end

/-! ## Casing helpers shared by the ORM exporters -/

/-- Split on every character of the class, keeping empty segments, as JS
`split(/[_\s-]/)` does. -/
def splitOnSeps (l : List Char) : List (List Char) :=
  match l with
  | [] => [[]]
  | c :: rest =>
    if c = '_' || c = '-' || isJsWsChar c then [] :: splitOnSeps rest
    else
      match splitOnSeps rest with
      | [] => [[c]]
      | w :: ws => (c :: w) :: ws

/-- `toPascalCase` / `formatPrismaModelName`: split on `[_\s-]`, capitalise
each word's head, lower-case its tail, join. -/
def pascalCase (s : String) : String :=
  String.join ((splitOnSeps s.toList).map (fun w =>
    match w with
    | [] => ""
    | c :: rest => String.mk (Char.toUpper c :: rest.map Char.toLower)))

/-- `toSnakeCase`: insert `_` before capitals, strip one leading `_`,
lower-case. -/
def snakeCase (s : String) : String :=
  let l := s.toList.flatMap (fun c => if c ≥ 'A' && c ≤ 'Z' then ['_', c] else [c])
  let l := match l with | '_' :: rest => rest | _ => l
  String.mk (l.map Char.toLower)

/-- `toCamelCase` / `formatPrismaFieldName`: each `_x` with `x` a lower-case
letter becomes `X` (global regex replace, scanning left to right). -/
def camelizeChars : List Char → List Char
  | [] => []
  | ['_'] => ['_']
  | '_' :: c :: rest2 =>
    if c ≥ 'a' && c ≤ 'z' then Char.toUpper c :: camelizeChars rest2
    else '_' :: camelizeChars (c :: rest2)
  | c :: rest => c :: camelizeChars rest

def camelCase (s : String) : String := String.mk (camelizeChars s.toList)

/-- JS `str.replace(pat, rep)` with a plain-string pattern: first occurrence
only. -/
def replaceFirstL (l pat rep : List Char) : List Char :=
  match l with
  | [] => []
  | c :: cs =>
    if startsWithL (c :: cs) pat then rep ++ (c :: cs).drop pat.length
    else c :: replaceFirstL cs pat rep

def replaceFirst (s pat rep : String) : String :=
  String.mk (replaceFirstL s.toList pat.toList rep.toList)

/-- Truthiness of a possibly-absent JS string. -/
def strFalsy (o : Option String) : Bool :=
  match o with
  | none => true
  | some v => v = ""

/-! ## Prisma exporter (src/lib/export/prisma-exporter.ts) -/

def prismaTypeMap : List (String × String) :=
  [("string", "String"), ("text", "String"), ("integer", "Int"),
   ("bigint", "BigInt"), ("float", "Float"), ("decimal", "Decimal"),
   ("boolean", "Boolean"), ("date", "DateTime"), ("datetime", "DateTime"),
   ("timestamp", "DateTime"), ("time", "DateTime"), ("json", "Json"),
   ("jsonb", "Json"), ("uuid", "String"), ("binary", "Bytes"),
   ("enum", "String"), ("array", "Json")]

/-- `typeMap[type] || 'String'`. -/
def mapPrismaType (type : String) : String :=
  match prismaTypeMap.lookup type with
  | some v => if v = "" then "String" else v
  | none => "String"

/-- One Prisma field line (plus optional description comment line). -/
def prismaFieldLines (t : Table) (c : Column) : List String :=
  let fieldName := camelCase c.name
  let fieldDef := "  " ++ fieldName ++ " " ++ mapPrismaType c.type
  let modifiers : List String :=
    if !c.nullable then
      (if containsSub c.type "timestamp" && strFalsy c.defaultValue
       then ["@default(now())"] else [])
    else []
  let fieldDef := if c.nullable then fieldDef ++ "?" else fieldDef
  let modifiers := modifiers ++
    (if c.primaryKey && (t.columns.filter (fun x => x.primaryKey)).length = 1
     then ["@id"] else [])
  let modifiers := modifiers ++ (if c.unique then ["@unique"] else [])
  let modifiers := modifiers ++
    (match c.defaultValue with
     | some v =>
       if v = "" then []
       else if asciiLower v = "uuid_generate_v4()" then ["@default(uuid())"]
       else if containsSub (asciiLower v) "now" || containsSub (asciiLower v) "current_timestamp" then
         ["@default(now())"]
       else if jsIsNumeric v then ["@default(" ++ v ++ ")"]
       else if asciiLower v = "true" || asciiLower v = "false" then ["@default(" ++ v ++ ")"]
       else ["@default(\"" ++ v ++ "\")"]
     | none => [])
  let fieldDef := if c.nullable && strFalsy c.defaultValue then fieldDef ++ "?" else fieldDef
  let fieldDef :=
    if modifiers.length > 0 then
      fieldDef ++ " " ++ String.intercalate " " (modifiers.filter (fun m => m ≠ ""))
    else fieldDef
  [fieldDef] ++ (match c.description with
                 | some d => if d ≠ "" then ["  /// " ++ d] else []
                 | none => [])

/-- Relation lines generated from a table's column-level foreign keys. -/
def prismaFkLines (schema : Schema) (t : Table) : List String :=
  (t.columns.filter (fun c => c.foreignKey.isSome)).filterMap (fun c =>
    match c.foreignKey with
    | none => none
    | some fk =>
      match schema.tables.find? (fun tb => tb.id = fk.tableId) with
      | none => none
      | some target =>
        let targetModelName := pascalCase target.name
        let fieldName := camelCase c.name
        let targetFieldName := camelCase
          (match (target.columns.find? (fun tc => tc.id = fk.columnId)).map (fun tc => tc.name) with
           | some n => if n = "" then "id" else n
           | none => "id")
        let line :=
          if fieldName ≠ asciiLower targetModelName then
            "  " ++ asciiLower targetModelName ++ " " ++ targetModelName ++
              "? @relation(fields: [" ++ fieldName ++ "], references: [" ++ targetFieldName ++ "]"
          else
            "  " ++ targetModelName ++ "Relation " ++ targetModelName ++
              "? @relation(fields: [" ++ fieldName ++ "], references: [" ++ targetFieldName ++ "]"
        let opts : List String :=
          (match fk.onDelete with
           | some v => if v ≠ "" && v ≠ "NO ACTION" then ["onDelete: " ++ v] else []
           | none => []) ++
          (match fk.onUpdate with
           | some v => if v ≠ "" && v ≠ "NO ACTION" then ["onUpdate: " ++ v] else []
           | none => [])
        some (if opts.length > 0 then line ++ ", " ++ String.intercalate ", " opts ++ ")"
              else line ++ ")"))

/-- The `ReferenceError` raised by the reverse-relation section when a
relationship has no (truthy) name: the fallback expression reads the
identifier `targetModelName`, which is not in scope there. -/
def prismaScopeErr : String := "targetModelName is not defined"

/-- One reverse-relation step (the body of the `incomingRelationships`
loop); fails with the scope `ReferenceError` when the relation line must be
rendered and the relationship has no (truthy) name. -/
def prismaReverseStep (schema : Schema) (t : Table) (acc : List String) (r : Relationship) :
    Except String (List String) :=
  (match schema.tables.find? (fun tb => tb.id = r.sourceTableId) with
      | none => .ok acc
      | some st =>
        let sourceModelName := pascalCase st.name
        match st.columns.find? (fun c => c.id = r.sourceColumnId),
              t.columns.find? (fun c => c.id = r.targetColumnId) with
        | some sc, some tc =>
          let sourceFieldName := camelCase sc.name
          let targetFieldName := camelCase tc.name
          let reverseFieldName :=
            if r.type = "one-to-many" then asciiLower sourceModelName ++ "s"
            else asciiLower sourceModelName
          let existingForeignKey : Bool :=
            match sc.foreignKey with
            | some fk => fk.tableId == t.id
            | none => false
          if existingForeignKey then .ok acc
          else
            match r.name with
            | some n =>
              if n = "" then .error prismaScopeErr
              else
                let line :=
                  "  " ++ reverseFieldName ++ " " ++ sourceModelName ++
                    "[] @relation(\"" ++ n ++ "\", fields: [" ++ targetFieldName ++
                    "], references: [" ++ sourceFieldName ++ "]"
                let opts : List String :=
                  (match r.onDelete with
                   | some v => if v ≠ "" && v ≠ "NO ACTION" then ["onDelete: " ++ v] else []
                   | none => []) ++
                  (match r.onUpdate with
                   | some v => if v ≠ "" && v ≠ "NO ACTION" then ["onUpdate: " ++ v] else []
                   | none => [])
                .ok (acc ++ [if opts.length > 0 then line ++ ", " ++ String.intercalate ", " opts ++ ")"
                             else line ++ ")"])
            | none => .error prismaScopeErr
        | _, _ => .ok acc)

/-- Reverse-relation lines for one table. -/
def prismaReverseLines (schema : Schema) (t : Table) : Except String (List String) :=
  (schema.relationships.filter (fun r => r.targetTableId = t.id)).foldlM
    (prismaReverseStep schema t) []

def prismaHeader : List String :=
  ["// This is your Prisma schema file,",
   "// learn more about it in the docs: https://pris.ly/d/prisma-schema",
   "",
   "generator client \x7b",
   "  provider = \"prisma-client-js\"",
   "\x7d",
   "",
   "datasource db \x7b",
   "  provider = \"postgresql\" // Change this to your database provider",
   "  url      = env(\"DATABASE_URL\")",
   "\x7d",
   ""]

def prismaModelLines (schema : Schema) (t : Table) : Except String (List String) :=
  match prismaReverseLines schema t with
  | .error e => .error e
  | .ok revLines =>
    let modelName := pascalCase t.name
    let pkc := t.columns.filter (fun c => c.primaryKey)
    .ok
      (["model " ++ modelName ++ " \x7b"]
       ++ t.columns.flatMap (prismaFieldLines t)
       ++ (if pkc.length > 1 then
             ["  @@id([" ++ String.intercalate ", " (pkc.map (fun c => camelCase c.name)) ++ "])"]
           else [])
       ++ prismaFkLines schema t
       ++ revLines
       ++ (match t.description with
           | some d => if d ≠ "" then ["  /// " ++ d] else []
           | none => [])
       ++ (if pascalCase t.name ≠ t.name then ["  @@map(\"" ++ t.name ++ "\")"] else [])
       ++ ["\x7d", ""])

def exportToPrisma (schema : Schema) : Except String String :=
  match schema.tables.foldlM (fun acc t =>
          match prismaModelLines schema t with
          | Except.error e => (Except.error e : Except String (List String))
          | Except.ok ls => Except.ok (acc ++ ls)) prismaHeader with
  | Except.error e => Except.error e
  | Except.ok lines => Except.ok (String.intercalate "\n" lines)

/-! ## Django / Laravel / TypeORM exporters (src/lib/export/export-manager.ts) -/

def mapToDjangoField (c : Column) : String :=
  let base :=
    match c.type with
    | "string" => "models.CharField(max_length=255)"
    | "text" => "models.TextField()"
    | "integer" => "models.IntegerField()"
    | "bigint" => "models.BigIntegerField()"
    | "float" => "models.FloatField()"
    | "decimal" => "models.DecimalField(max_digits=10, decimal_places=2)"
    | "boolean" => "models.BooleanField()"
    | "date" => "models.DateField()"
    | "datetime" => "models.DateTimeField(auto_now_add=True)"
    | "timestamp" => "models.DateTimeField(auto_now_add=True)"
    | "time" => "models.TimeField()"
    | "json" => "models.JSONField()"
    | "uuid" => "models.UUIDField(primary_key=True, default=uuid.uuid4, editable=False)"
    | "binary" => "models.BinaryField()"
    | _ => "models.CharField(max_length=255)"
  let base := if c.primaryKey && c.type ≠ "uuid" then "models.AutoField(primary_key=True)" else base
  let base := if c.unique && !c.primaryKey then replaceFirst base ")" ", unique=True)" else base
  let base := if !c.nullable && !c.primaryKey then replaceFirst base ")" ", blank=False)" else base
  let base := if c.nullable && !c.primaryKey then replaceFirst base ")" ", null=True, blank=True)" else base
  match c.defaultValue with
  | some v =>
    if v = "" then base
    else if asciiLower v = "uuid_generate_v4()" then base
    else if containsSub (asciiLower v) "now" then base
    else if jsIsNumeric v then replaceFirst base ")" (", default=" ++ v ++ ")")
    else if asciiLower v = "true" || asciiLower v = "false" then
      replaceFirst base ")" (", default=" ++ v ++ ")")
    else replaceFirst base ")" (", default=\"" ++ v ++ "\")")
  | none => base

def exportToDjango (schema : Schema) : String :=
  let lines :=
    ["from django.db import models", "from django.utils import timezone", ""]
    ++ schema.tables.flatMap (fun t =>
      let modelName := pascalCase t.name
      ["class " ++ modelName ++ "(models.Model):"]
      ++ (match t.description with
          | some d => if d ≠ "" then ["    \"\"\"" ++ d ++ "\"\"\""] else []
          | none => [])
      ++ t.columns.flatMap (fun c =>
           ["    " ++ snakeCase c.name ++ " = " ++ mapToDjangoField c]
           ++ (match c.description with
               | some d => if d ≠ "" then ["    # " ++ d] else []
               | none => []))
      ++ (match t.columns.find? (fun c => containsSub (asciiLower c.name) "name") with
          | some nf =>
            ["    def __str__(self):",
             "        return str(self." ++ snakeCase nf.name ++ ")"]
          | none =>
            ["    def __str__(self):",
             "        return f\"" ++ modelName ++ "(id=\x7bself.id\x7d)\""])
      ++ ["",
          "    class Meta:",
          "        db_table = \x27" ++ t.name ++ "\x27",
          ""])
  String.intercalate "\n" lines

def mapToLaravelColumn (c : Column) : String :=
  let base :=
    match c.type with
    | "string" => "string(\x27" ++ c.name ++ "\x27)"
    | "text" => "text(\x27" ++ c.name ++ "\x27)"
    | "integer" => if c.primaryKey then "id()" else "integer(\x27" ++ c.name ++ "\x27)"
    | "bigint" => "bigInteger(\x27" ++ c.name ++ "\x27)"
    | "float" => "float(\x27" ++ c.name ++ "\x27)"
    | "decimal" => "decimal(\x27" ++ c.name ++ "\x27, 10, 2)"
    | "boolean" => "boolean(\x27" ++ c.name ++ "\x27)"
    | "date" => "date(\x27" ++ c.name ++ "\x27)"
    | "datetime" => "timestamp(\x27" ++ c.name ++ "\x27)"
    | "timestamp" => "timestamp(\x27" ++ c.name ++ "\x27)"
    | "time" => "time(\x27" ++ c.name ++ "\x27)"
    | "json" => "json(\x27" ++ c.name ++ "\x27)"
    | "uuid" => "uuid(\x27" ++ c.name ++ "\x27)"
    | "binary" => "binary(\x27" ++ c.name ++ "\x27)"
    | _ => "string(\x27" ++ c.name ++ "\x27)"
  let base := if c.nullable then base ++ "->nullable()" else base
  let base := if c.unique && !c.primaryKey then base ++ "->unique()" else base
  match c.defaultValue with
  | some v =>
    if v = "" then base
    else if asciiLower v = "uuid_generate_v4()" then
      "uuid(\x27" ++ c.name ++ "\x27)->default((\\Illuminate\\Support\\Str::uuid()))"
    else if containsSub (asciiLower v) "now" then base ++ "->useCurrent()"
    else if jsIsNumeric v then base ++ "->default(" ++ v ++ ")"
    else if asciiLower v = "true" || asciiLower v = "false" then base ++ "->default(" ++ v ++ ")"
    else base ++ "->default(\x27" ++ v ++ "\x27)"
  | none => base

def exportToLaravel (schema : Schema) : String :=
  let lines :=
    ["<?php", "",
     "use Illuminate\\Database\\Migrations\\Migration;",
     "use Illuminate\\Database\\Schema\\Blueprint;",
     "use Illuminate\\Support\\Facades\\Schema;", ""]
    ++ schema.tables.flatMap (fun t =>
      let tableName := snakeCase t.name
      ["return new class extends Migration",
       "\x7b",
       "    /**",
       "     * Run the migrations.",
       "     */",
       "    public function up(): void",
       "    \x7b",
       "        Schema::create(\x27" ++ tableName ++ "\x27, function (Blueprint $table) \x7b"]
      ++ t.columns.map (fun c => "            $table->" ++ mapToLaravelColumn c ++ ";")
      ++ ["        \x7d);",
          "    \x7d",
          "",
          "    /**",
          "     * Reverse the migrations.",
          "     */",
          "    public function down(): void",
          "    \x7b",
          "        Schema::dropIfExists(\x27" ++ tableName ++ "\x27);",
          "    \x7d",
          "\x7d;",
          ""])
  String.intercalate "\n" lines

def mapToTypeORMColumn (c : Column) : String :=
  let base :=
    match c.type with
    | "string" => "@Column(\x7b type: \"varchar\" \x7d)\n    " ++ camelCase c.name ++ ": string;"
    | "text" => "@Column(\x7b type: \"text\" \x7d)\n    " ++ camelCase c.name ++ ": string;"
    | "integer" =>
      if c.primaryKey then "@PrimaryGeneratedColumn()\n    id: number;"
      else "@Column(\x7b type: \"int\" \x7d)\n    " ++ camelCase c.name ++ ": number;"
    | "bigint" => "@Column(\x7b type: \"bigint\" \x7d)\n    " ++ camelCase c.name ++ ": number;"
    | "float" => "@Column(\x7b type: \"float\" \x7d)\n    " ++ camelCase c.name ++ ": number;"
    | "decimal" =>
      "@Column(\x7b type: \"decimal\", precision: 10, scale: 2 \x7d)\n    " ++
        camelCase c.name ++ ": number;"
    | "boolean" => "@Column(\x7b type: \"boolean\" \x7d)\n    " ++ camelCase c.name ++ ": boolean;"
    | "date" => "@Column(\x7b type: \"date\" \x7d)\n    " ++ camelCase c.name ++ ": Date;"
    | "datetime" =>
      "@CreateDateColumn()\n    createdAt: Date;\n    @UpdateDateColumn()\n    updatedAt: Date;"
    | "timestamp" =>
      "@CreateDateColumn()\n    createdAt: Date;\n    @UpdateDateColumn()\n    updatedAt: Date;"
    | "time" => "@Column(\x7b type: \"time\" \x7d)\n    " ++ camelCase c.name ++ ": Date;"
    | "json" => "@Column(\x7b type: \"json\" \x7d)\n    " ++ camelCase c.name ++ ": any;"
    | "uuid" => "@Column(\x7b type: \"uuid\" \x7d)\n    " ++ camelCase c.name ++ ": string;"
    | "binary" => "@Column(\x7b type: \"blob\" \x7d)\n    " ++ camelCase c.name ++ ": Buffer;"
    | _ => "@Column(\x7b type: \"varchar\" \x7d)\n    " ++ camelCase c.name ++ ": string;"
  let base :=
    if !c.nullable && !c.primaryKey then replaceFirst base ")" ", nullable: false \x7d)" else base
  let base :=
    if c.unique && !c.primaryKey then replaceFirst base ")" ", unique: true \x7d)" else base
  match c.defaultValue with
  | some v =>
    if v = "" then base
    else replaceFirst base ")" (", default: () => \"" ++ v ++ "\" \x7d)")
  | none => base

def exportToTypeORM (schema : Schema) : String :=
  let lines :=
    ["import \x7b",
     "    Entity,",
     "    PrimaryGeneratedColumn,",
     "    Column,",
     "    CreateDateColumn,",
     "    UpdateDateColumn,",
     "    ManyToOne,",
     "    OneToMany,",
     "    JoinColumn,",
     "\x7d from \"typeorm\";",
     ""]
    ++ schema.tables.flatMap (fun t =>
      ["@Entity()",
       "export class " ++ pascalCase t.name ++ " \x7b"]
      ++ t.columns.map (fun c => "    " ++ mapToTypeORMColumn c)
      ++ ["\x7d", ""])
  String.intercalate "\n" lines

/-! ## Auto-layout engine (src/src/lib/layout/auto-layout.ts)

Coordinates are rationals; the transcendental operations and `Math.random`
are oracle parameters (`random` is indexed by call order), so every theorem
below holds for every behaviour of the numeric primitives.  `x / 0` is `0`
here where JS produces an infinity — this corner is unreachable under the
real primitives and the positive default spacing.  `node.fx`/`node.fy` are
never assigned by the source, so the `fx === undefined` guard is always taken
and the fields are omitted. -/

structure MathOracle where
  sqrt : Rat → Rat
  cos : Rat → Rat
  sin : Rat → Rat
  atan2 : Rat → Rat → Rat
  pi : Rat
  random : Nat → Rat

inductive LayoutAlgorithm where
  | grid
  | hierarchical
  | forceDirected
  | circular
deriving DecidableEq

structure LayoutOptions where
  algorithm : LayoutAlgorithm
  spacing : Pos
  centerOffset : Pos
  iterations : Option Nat
deriving DecidableEq

def DEFAULT_OPTIONS : LayoutOptions :=
  { algorithm := .forceDirected, spacing := { x := 350, y := 280 },
    centerOffset := { x := 400, y := 300 }, iterations := some 300 }

def ratFloor (q : Rat) : Rat := (q.floor : Int)

def ratCeil (q : Rat) : Rat := (q.ceil : Int)

/-- JS `Math.round`: half-up. -/
def ratRound (q : Rat) : Rat := ratFloor (q + 1/2)

/-- JS `%` on the non-negative numbers met here (`b = 0` modelled as `0`). -/
def jsMod (a b : Rat) : Rat := if b = 0 then 0 else a - b * ratFloor (a / b)

def mapIdxL {α β : Type} (f : Nat → α → β) : Nat → List α → List β
  | _, [] => []
  | i, a :: as => f i a :: mapIdxL f (i + 1) as

def gridPlace (opts : LayoutOptions) (columns : Rat) (index : Nat) (t : Table) : Table :=
  let row := ratFloor (((index : Nat) : Rat) / columns)
  let col := jsMod ((index : Nat) : Rat) columns
  { t with position := { x := opts.centerOffset.x + col * opts.spacing.x,
                         y := opts.centerOffset.y + row * opts.spacing.y } }

def gridLayout (O : MathOracle) (tables : List Table) (opts : LayoutOptions) : List Table :=
  mapIdxL (gridPlace opts (ratCeil (O.sqrt ((tables.length : Nat) : Rat)))) 0 tables

/-! Hierarchical layout: JS `Map`/`Set` are association lists with
replace-on-set / add-if-absent semantics. -/

def mapGet {α : Type} (m : List (String × α)) (k : String) : Option α :=
  (m.find? (fun p => p.1 = k)).map (fun p => p.2)

def mapSet {α : Type} (m : List (String × α)) (k : String) (v : α) : List (String × α) :=
  if (m.find? (fun p => p.1 = k)).isSome then
    m.map (fun p => if p.1 = k then (k, v) else p)
  else m ++ [(k, v)]

def setAdd (s : List String) (x : String) : List String :=
  if s.contains x then s else s ++ [x]

/-- Adjacency list and in-degree map built from the relationships. -/
def buildGraph (tables : List Table) (relationships : List Relationship) :
    List (String × List String) × List (String × Int) :=
  let init := tables.foldl
    (fun (st : List (String × List String) × List (String × Int)) t =>
      (mapSet st.1 t.id [], mapSet st.2 t.id 0)) ([], [])
  relationships.foldl
    (fun (st : List (String × List String) × List (String × Int)) rel =>
      match mapGet st.1 rel.sourceTableId with
      | some targets =>
        (mapSet st.1 rel.sourceTableId (setAdd targets rel.targetTableId),
         mapSet st.2 rel.targetTableId ((mapGet st.2 rel.targetTableId).getD 0 + 1))
      | none => st) init

/-- One node of the Kahn level loop: mark visited, decrement each neighbour's
in-degree, enqueue neighbours reaching zero. -/
def processNode (adj : List (String × List String))
    (st : List String × List (String × Int) × List String) (nodeId : String) :
    List String × List (String × Int) × List String :=
  if st.1.contains nodeId then st
  else
    let visited := st.1 ++ [nodeId]
    match mapGet adj nodeId with
    | none => (visited, st.2.1, st.2.2)
    | some neighbors =>
      neighbors.foldl
        (fun (st2 : List String × List (String × Int) × List String) nb =>
          let degree := (mapGet st2.2.1 nb).getD 0 - 1
          let inDeg := mapSet st2.2.1 nb degree
          if degree = 0 && !st2.1.contains nb then (st2.1, inDeg, st2.2.2 ++ [nb])
          else (st2.1, inDeg, st2.2.2))
        (visited, st.2.1, st.2.2)

/-- The `while (queue.length > 0)` level loop.  Fuel: beyond the initial
roots, a node is enqueued only by the decrement that takes its in-degree to
exactly zero (in-degrees only ever decrease), so at most `2·n` enqueues and
`2·n + 1` iterations occur; the fuel passed below is never exhausted. -/
def kahnLoop (adj : List (String × List String)) :
    Nat → List String → List String → List (String × Int) → List (List String) →
    List (List String) × List String
  | 0, _, visited, _, levels => (levels, visited)
  | _ + 1, [], visited, _, levels => (levels, visited)
  | fuel + 1, q :: qs, visited, inDeg, levels =>
    let st := (q :: qs).foldl (processNode adj) (visited, inDeg, [])
    kahnLoop adj fuel st.2.2 st.1 st.2.1 (levels ++ [q :: qs])

/-- `levelMap` lookup: `forEach` assignment means the last level containing
the id wins. -/
def levelOf (levels : List (List String)) (id : String) : Option Nat :=
  (mapIdxL (fun i lvl => (i, lvl)) 0 levels).foldl
    (fun acc p => if p.2.contains id then some p.1 else acc) none

def jsIndexOf (l : List String) (x : String) : Int :=
  match l.findIdx? (fun s => s = x) with
  | some i => Int.ofNat i
  | none => -1

def hierPlace (opts : LayoutOptions) (levels : List (List String)) (t : Table) : Table :=
  let level := (levelOf levels t.id).getD 0
  let levelTables := levels.getD level []
  let indexInLevel := jsIndexOf levelTables t.id
  let levelWidth := levelTables.length
  { t with position :=
      { x := opts.centerOffset.x +
          ((indexInLevel : Rat) - ((levelWidth : Nat) : Rat) / 2) * opts.spacing.x,
        y := opts.centerOffset.y + ((level : Nat) : Rat) * opts.spacing.y } }

def hierarchicalLayout (tables : List Table) (relationships : List Relationship)
    (opts : LayoutOptions) : List Table :=
  let g := buildGraph tables relationships
  let queue0 := (tables.filter (fun t => (mapGet g.2 t.id).getD 0 = 0)).map (fun t => t.id)
  let lv := kahnLoop g.1 (2 * tables.length + 2) queue0 [] g.2 []
  let remaining := tables.filter (fun t => !lv.2.contains t.id)
  let levels := if remaining.length > 0 then lv.1 ++ [remaining.map (fun t => t.id)] else lv.1
  tables.map (hierPlace opts levels)

/-! Force-directed layout (Fruchterman–Reingold). -/

structure FNode where
  id : String
  x : Rat
  y : Rat
  vx : Rat
  vy : Rat
deriving DecidableEq

/-- The ordered `(i, j)` pairs of the nested repulsion loops. -/
def allPairs (n : Nat) : List (Nat × Nat) :=
  (List.range n).flatMap (fun i =>
    (List.range n).filterMap (fun j => if i < j then some (i, j) else none))

def repulsePair (O : MathOracle) (k : Rat) (ns : List FNode) (p : Nat × Nat) : List FNode :=
  match ns.get? p.1, ns.get? p.2 with
  | some ni, some nj =>
    let dx := nj.x - ni.x
    let dy := nj.y - ni.y
    let dist0 := O.sqrt (dx * dx + dy * dy)
    let dist := if dist0 = 0 then 1 else dist0
    if dist < k * 3 then
      let force := k * k / dist
      let fx := dx / dist * force
      let fy := dy / dist * force
      let ns := ns.set p.1 { ni with vx := ni.vx - fx, vy := ni.vy - fy }
      ns.set p.2 { nj with vx := nj.vx + fx, vy := nj.vy + fy }
    else ns
  | _, _ => ns

def attractEdge (O : MathOracle) (k : Rat) (ns : List FNode) (e : String × String) :
    List FNode :=
  match ns.findIdx? (fun n => n.id = e.1), ns.findIdx? (fun n => n.id = e.2) with
  | some si, some ti =>
    match ns.get? si, ns.get? ti with
    | some sn, some tn =>
      let dx := tn.x - sn.x
      let dy := tn.y - sn.y
      let dist0 := O.sqrt (dx * dx + dy * dy)
      let dist := if dist0 = 0 then 1 else dist0
      let force := dist * dist / k
      let fx := dx / dist * force
      let fy := dy / dist * force
      -- on a self-edge `si = ti` both `fx` and `fy` are `0` (`dx = dy = 0`),
      -- so the stale second write below coincides with the aliased JS update
      let ns := ns.set si { sn with vx := sn.vx + fx, vy := sn.vy + fy }
      ns.set ti { tn with vx := tn.vx - fx, vy := tn.vy - fy }
    | _, _ => ns
  | _, _ => ns

def coolNode (O : MathOracle) (t : Rat) (n : FNode) : FNode :=
  let disp := min (O.sqrt (n.vx * n.vx + n.vy * n.vy)) t
  let angle := O.atan2 n.vy n.vx
  { n with x := n.x + O.cos angle * disp, y := n.y + O.sin angle * disp,
           vx := 0, vy := 0 }

def forceIter (O : MathOracle) (k temperature : Rat) (iterations : Nat)
    (edges : List (String × String)) (ns : List FNode) (iter : Nat) : List FNode :=
  let t := temperature * (1 - ((iter : Nat) : Rat) / ((iterations : Nat) : Rat))
  let ns := (allPairs ns.length).foldl (repulsePair O k) ns
  let ns := edges.foldl (attractEdge O k) ns
  ns.map (coolNode O t)

def forcePlace (ns : List FNode) (offX offY : Rat) (t : Table) : Table :=
  match ns.find? (fun n => n.id = t.id) with
  | some n =>
    { t with position := { x := ratRound (n.x + offX), y := ratRound (n.y + offY) } }
  | none => t

def forceDirectedLayout (O : MathOracle) (tables : List Table)
    (relationships : List Relationship) (opts : LayoutOptions) : List Table :=
  let iterations := match opts.iterations with
                    | some n => if n = 0 then 300 else n
                    | none => 300
  let k := O.sqrt ((opts.spacing.x * opts.spacing.y) / ((tables.length : Nat) : Rat))
  let temperature := max opts.spacing.x opts.spacing.y / 10
  let nodes0 := mapIdxL (fun i t =>
    ({ id := t.id, x := O.random (2 * i) * opts.centerOffset.x * 2,
       y := O.random (2 * i + 1) * opts.centerOffset.y * 2, vx := 0, vy := 0 } : FNode))
    0 tables
  let edges := relationships.map (fun r => (r.sourceTableId, r.targetTableId))
  let ns := (List.range iterations).foldl (forceIter O k temperature iterations edges) nodes0
  let avgX := (ns.foldl (fun s n => s + n.x) 0) / ((ns.length : Nat) : Rat)
  let avgY := (ns.foldl (fun s n => s + n.y) 0) / ((ns.length : Nat) : Rat)
  tables.map (forcePlace ns (opts.centerOffset.x - avgX) (opts.centerOffset.y - avgY))

def circPlace (O : MathOracle) (opts : LayoutOptions) (n : Nat) (radius : Rat)
    (index : Nat) (t : Table) : Table :=
  let angle := (2 * O.pi * ((index : Nat) : Rat)) / ((n : Nat) : Rat) - O.pi / 2
  { t with position :=
      { x := ratRound (opts.centerOffset.x + radius * O.cos angle),
        y := ratRound (opts.centerOffset.y + radius * O.sin angle) } }

def circularLayout (O : MathOracle) (tables : List Table) (opts : LayoutOptions) :
    List Table :=
  mapIdxL
    (circPlace O opts tables.length
      (min opts.spacing.x opts.spacing.y * O.sqrt ((tables.length : Nat) : Rat) /
        (2 * O.pi)))
    0 tables

/-- `AutoLayout.layoutTables` (the caller's `{...DEFAULT_OPTIONS, ...options}`
merge supplies a full option record; the `default` switch arm is unreachable
for the four-valued algorithm type). -/
def AutoLayout.layoutTables (O : MathOracle) (tables : List Table)
    (relationships : List Relationship) (opts : LayoutOptions) : List Table :=
  match opts.algorithm with
  | .grid => gridLayout O tables opts
  | .hierarchical => hierarchicalLayout tables relationships opts
  | .forceDirected => forceDirectedLayout O tables relationships opts
  | .circular => circularLayout O tables opts

/-! ## Export dispatcher (src/lib/export/export-manager.ts, `ExportManager.export`)

`options.format` is modelled as an open string so that out-of-set formats can
be expressed; `options.sqlDialect || 'postgresql'` and the `includePositions`
parameter default are modelled with `Option`. -/

structure ExportOptions where
  format : String
  sqlDialect : Option SQLDialect
  includePositions : Option Bool
  includeDescriptions : Option Bool
deriving DecidableEq

/-! ## Django importer (src/src/lib/import/django-importer.ts)

The importer is a line/regex scanner; each regular expression of the source is
implemented as a direct matcher with the same semantics (lazy `*?` = shortest
match, greedy `+`/`*` = longest, `.` never matches a newline, `\s`/`\w` as in
JS restricted to ASCII).  `Date.now()` is the `importId` parameter (the value
is also used for the schema id), `new Date()` is the `now` parameter. -/

def splitLinesL : List Char → List (List Char)
  | [] => [[]]
  | '\n' :: rest => [] :: splitLinesL rest
  | c :: rest =>
    match splitLinesL rest with
    | [] => [[c]]
    | w :: ws => (c :: w) :: ws

def intercalateNl : List (List Char) → List Char
  | [] => []
  | [l] => l
  | l :: rest => l ++ '\n' :: intercalateNl rest

/-- `(content.take b).drop a`: the substring `[a, b)`. -/
def slice (l : List Char) (a b : Nat) : List Char := (l.take b).drop a

def countChar (l : List Char) (ch : Char) : Nat := (l.filter (fun c => c = ch)).length

def lastIdxOf (l : List Char) (ch : Char) : Option Nat :=
  match l.reverse.findIdx? (fun c => c = ch) with
  | some r => some (l.length - 1 - r)
  | none => none

/-- JS `trimEnd`. -/
def jsTrimEndL (l : List Char) : List Char := (l.reverse.dropWhile isJsWsChar).reverse

/-- Strip the line comment (text from the first `#`) and `trimEnd`, per line. -/
def stripComment (line : List Char) : List Char :=
  match line.findIdx? (fun c => c = '#') with
  | some i => jsTrimEndL (line.take i)
  | none => line

/-- The importer's pre-pass: strip comments, drop blank lines, re-join. -/
def cleanDjango (content : List Char) : List Char :=
  intercalateNl (((splitLinesL content).map stripComment).filter (fun l => jsTrimL l ≠ []))

/-- Try a matcher at every position, left to right (regex scanning). -/
def scanFirst {α : Type} (f : List Char → Option α) : List Char → Option α
  | [] => f []
  | c :: rest =>
    match f (c :: rest) with
    | some x => some x
    | none => scanFirst f rest

/-- Lazy `(.*?)\):`: the least number of non-newline characters after which
`"):"` follows. -/
def lazyUntilCloseColon : List Char → Option Nat
  | [] => none
  | c :: rest =>
    if startsWithL (c :: rest) "):".toList then some 0
    else if c = '\n' then none
    else (lazyUntilCloseColon rest).map (fun n => n + 1)

/-- Match `/class\s+(\w+)\s*\((.*?)\):/` at the head; yields class name,
inheritance list and total match length. -/
def matchClassAt (l : List Char) : Option (String × String × Nat) :=
  if !startsWithL l "class".toList then none
  else
    let r1 := l.drop 5
    let ws := r1.takeWhile isJsWsChar
    if ws = [] then none
    else
      let r2 := r1.drop ws.length
      let nm := r2.takeWhile isWordChar
      if nm = [] then none
      else
        let r3 := r2.drop nm.length
        let ws2 := r3.takeWhile isJsWsChar
        match r3.drop ws2.length with
        | '(' :: r5 =>
          match lazyUntilCloseColon r5 with
          | none => none
          | some j =>
            some (String.mk nm, String.mk (r5.take j),
                  5 + ws.length + nm.length + ws2.length + 1 + j + 2)
        | _ => none

/-- The global `classRegex.exec` loop, recursing structurally on a character
budget: every step consumes at least one character (a successful match
consumes `len ≥ 8` and `(c :: rest).drop len = rest.drop (len - 1)`), so with
the initial budget `l.length` the zero-budget arm is reached only on the
empty remainder, where it agrees with the empty-list arm. -/
def scanClassesFuel : Nat → Nat → List Char → List (String × String × Nat)
  | 0, _, _ => []
  | _ + 1, _, [] => []
  | fuel + 1, pos, c :: rest =>
    match matchClassAt (c :: rest) with
    | some (n, inh, len) =>
      (n, inh, pos + len) :: scanClassesFuel fuel (pos + len) (rest.drop (len - 1))
    | none => scanClassesFuel fuel (pos + 1) rest

def scanClasses (pos : Nat) (l : List Char) : List (String × String × Nat) :=
  scanClassesFuel l.length pos l

/-- First index `≥ i` holding a newline, else `content.length`. -/
def lineEndFrom (content : List Char) (i : Nat) : Nat :=
  i + ((content.drop i).takeWhile (fun c => c ≠ '\n')).length

/-- Largest line start `≤ i`. -/
def lineStartBefore (content : List Char) (i : Nat) : Nat :=
  i - ((content.take i).reverse.takeWhile (fun c => c ≠ '\n')).length

/-- JS `line.search(/\S/)`: index of the first non-whitespace character,
`-1` when none. -/
def searchNonWs (line : List Char) : Int :=
  match line.findIdx? (fun c => !isJsWsChar c) with
  | some k => Int.ofNat k
  | none => -1

/-- The line scan of `findClassEnd`, recursing structurally on a line budget:
each step advances `i` past one line, so `content.length + 1` lines always
suffice; the zero-budget arm is reached only with `i` past the end, where it
agrees with the `content.length ≤ i` arm. -/
def findClassEndLoop (content : List Char) (baseIndent : Int) :
    Nat → Nat → Nat
  | 0, _ => content.length
  | fuel + 1, i =>
    if content.length ≤ i then content.length
    else
      let k := ((content.drop i).takeWhile (fun c => c ≠ '\n')).length
      let line := slice content i (i + k)
      if jsTrimL line = [] then findClassEndLoop content baseIndent fuel (i + k + 1)
      else
        let t := jsTrimL line
        if (startsWithL t "class ".toList || startsWithL t "def ".toList)
            && searchNonWs line ≤ baseIndent then i
        else findClassEndLoop content baseIndent fuel (i + k + 1)

/-- `findClassEnd`: scan forward line by line from the class header's line,
returning the start index of the first non-blank line that begins a new
`class`/`def` at indentation `≤` the header's. -/
def findClassEnd (content : List Char) (startIndex : Nat) : Nat :=
  let classLineStart := lineStartBefore content startIndex
  let classLineEnd := lineEndFrom content classLineStart
  let baseIndent := searchNonWs (slice content classLineStart classLineEnd)
  findClassEndLoop content baseIndent (content.length + 1) (classLineEnd + 1)

def isQuoteChar (c : Char) : Bool := c = '\x27' || c = '"' || c = '\x60'

/-- Lazy `([\s\S]*?)` before the (JS) lookahead `(?=class|\Z)` — `\Z` is an
identity escape in JS, i.e. a literal `Z`. -/
def lazyUntilClassOrZ : List Char → Option (List Char)
  | [] => none
  | c :: rest =>
    if startsWithL (c :: rest) "class".toList || c = 'Z' then some []
    else (lazyUntilClassOrZ rest).map (fun xs => c :: xs)

/-- Match `/class\s+Meta\s*:([\s\S]*?)(?=class|\Z)/` at the head. -/
def matchMetaAt (l : List Char) : Option (List Char) :=
  if !startsWithL l "class".toList then none
  else
    let r1 := l.drop 5
    let ws := r1.takeWhile isJsWsChar
    if ws = [] then none
    else
      let r2 := r1.drop ws.length
      if !startsWithL r2 "Meta".toList then none
      else
        let r3 := r2.drop 4
        let ws2 := r3.takeWhile isJsWsChar
        match r3.drop ws2.length with
        | ':' :: r5 => lazyUntilClassOrZ r5
        | _ => none

/-- Match `/<key>\s*=\s*['"][^'"]+['"]/`-style patterns (`db_table`,
`through`): the quoted value after `key =`, quotes being any of the three
quote characters. -/
def matchKeyQuoted (key : List Char) (l : List Char) : Option (List Char) :=
  if !startsWithL l key then none
  else
    let r1 := l.drop key.length
    let ws := r1.takeWhile isJsWsChar
    match r1.drop ws.length with
    | '=' :: r3 =>
      let ws2 := r3.takeWhile isJsWsChar
      match r3.drop ws2.length with
      | q :: r5 =>
        if isQuoteChar q then
          let body := r5.takeWhile (fun c => !isQuoteChar c)
          if body = [] then none
          else
            match r5.drop body.length with
            | q2 :: _ => if isQuoteChar q2 then some body else none
            | [] => none
        else none
      | [] => none
    | _ => none

def tripleQuote : List Char := ['"', '"', '"']

def lazyUntilTriple : List Char → Option (List Char)
  | [] => none
  | c :: rest =>
    if startsWithL (c :: rest) tripleQuote then some []
    else (lazyUntilTriple rest).map (fun xs => c :: xs)

/-- Lazy non-newline run before `"""` (for `/class\s+Meta.*?"""/`). -/
def lazyNoNlUntilTriple : List Char → Option (List Char)
  | [] => none
  | c :: rest =>
    if startsWithL (c :: rest) tripleQuote then some (rest.drop 2)
    else if c = '\n' then none
    else lazyNoNlUntilTriple rest

/-- Match `/class\s+Meta.*?"""([\s\S]*?)"""/` at the head. -/
def matchDocAt (l : List Char) : Option (List Char) :=
  if !startsWithL l "class".toList then none
  else
    let r1 := l.drop 5
    let ws := r1.takeWhile isJsWsChar
    if ws = [] then none
    else
      let r2 := r1.drop ws.length
      if !startsWithL r2 "Meta".toList then none
      else
        match lazyNoNlUntilTriple (r2.drop 4) with
        | none => none
        | some afterOpen => lazyUntilTriple afterOpen

/-- Match `/^(\w+)\s*=\s*models\.(\w+)(?:\((.*)\))?/` against a (trimmed)
line: name, field type and argument text (`''` when the optional
parenthesised group is absent or unclosed, as `match[3] || ''` yields). -/
def matchFieldLine (line : List Char) : Option (String × String × List Char) :=
  let nm := line.takeWhile isWordChar
  if nm = [] then none
  else
    let r1 := line.drop nm.length
    let ws := r1.takeWhile isJsWsChar
    match r1.drop ws.length with
    | '=' :: r3 =>
      let ws2 := r3.takeWhile isJsWsChar
      let r4 := r3.drop ws2.length
      if !startsWithL r4 "models.".toList then none
      else
        let r5 := r4.drop 7
        let ty := r5.takeWhile isWordChar
        if ty = [] then none
        else
          match r5.drop ty.length with
          | '(' :: r7 =>
            -- greedy `(.*)\)`: up to the last `)`; without one the optional
            -- group is skipped
            match lastIdxOf r7 ')' with
            | some k => some (String.mk nm, String.mk ty, r7.take k)
            | none => some (String.mk nm, String.mk ty, [])
          | _ => some (String.mk nm, String.mk ty, [])
    | _ => none

/-- Match `/^(\w+)\s*=\s*models\.(\w+)\s*\((.*)\)/` (the multi-line variant:
whitespace allowed before `(` and the parentheses are mandatory). -/
def matchMultiFieldLine (line : List Char) : Option (String × String × List Char) :=
  let nm := line.takeWhile isWordChar
  if nm = [] then none
  else
    let r1 := line.drop nm.length
    let ws := r1.takeWhile isJsWsChar
    match r1.drop ws.length with
    | '=' :: r3 =>
      let ws2 := r3.takeWhile isJsWsChar
      let r4 := r3.drop ws2.length
      if !startsWithL r4 "models.".toList then none
      else
        let r5 := r4.drop 7
        let ty := r5.takeWhile isWordChar
        if ty = [] then none
        else
          let r6 := r5.drop ty.length
          let ws3 := r6.takeWhile isJsWsChar
          match r6.drop ws3.length with
          | '(' :: r7 =>
            match lastIdxOf r7 ')' with
            | some k => some (String.mk nm, String.mk ty, r7.take k)
            | none => none
          | _ => none
    | _ => none

structure DjangoRel where
  model : String
  field : String
  onDelete : Option String
deriving DecidableEq

structure DjangoM2M where
  model : String
  through : Option String
deriving DecidableEq

structure DjangoField where
  name : String
  type : String
  nullable : Bool
  primaryKey : Bool
  unique : Bool
  defaultValue : Option String
  foreignKey : Option DjangoRel
  oneToOneField : Option DjangoRel
  manyToManyField : Option DjangoM2M
  description : Option String
deriving DecidableEq

structure DjangoModel where
  name : String
  tableName : Option String
  fields : List DjangoField
  description : Option String
deriving DecidableEq

def djangoTypeMap : List (String × String) :=
  [("CharField", "string"), ("TextField", "text"), ("IntegerField", "integer"),
   ("BigIntegerField", "bigint"), ("SmallIntegerField", "integer"),
   ("AutoField", "integer"), ("BigAutoField", "bigint"), ("FloatField", "float"),
   ("DecimalField", "decimal"), ("BooleanField", "boolean"), ("DateField", "date"),
   ("DateTimeField", "datetime"), ("TimeField", "time"), ("JSONField", "json"),
   ("UUIDField", "uuid"), ("BinaryField", "binary"), ("EmailField", "string"),
   ("URLField", "string"), ("SlugField", "string"),
   ("PositiveIntegerField", "integer"), ("PositiveSmallIntegerField", "integer"),
   ("PositiveBigIntegerField", "bigint"), ("ForeignKey", "integer"),
   ("OneToOneField", "integer"), ("ManyToManyField", "json")]

/-- `typeMap[djangoType] || 'string'`. -/
def mapDjangoType (t : String) : String :=
  match djangoTypeMap.lookup t with
  | some v => if v = "" then "string" else v
  | none => "string"

/-- `args.replace(/\s+/g, ' ')`. -/
def collapseWsAux : Bool → List Char → List Char
  | _, [] => []
  | prevWs, c :: rest =>
    if isJsWsChar c then
      if prevWs then collapseWsAux true rest else ' ' :: collapseWsAux true rest
    else c :: collapseWsAux false rest

def collapseWs (l : List Char) : List Char := collapseWsAux false l

/-- Match `/default\s*=\s*([^,\)]+...)/` at the head.  The greedy `[^,\)]+`
run only stops at `,`, `)` or the end, so the optional `\([^)]*\)` suffix of
the source pattern can never start and is dead. -/
def matchDefaultAt (l : List Char) : Option (List Char) :=
  if !startsWithL l "default".toList then none
  else
    let r1 := l.drop 7
    let ws := r1.takeWhile isJsWsChar
    match r1.drop ws.length with
    | '=' :: r3 =>
      let ws2 := r3.takeWhile isJsWsChar
      let r4 := r3.drop ws2.length
      let v := r4.takeWhile (fun c => c ≠ ',' && c ≠ ')')
      if v = [] then none else some v
    | _ => none

/-- `replace(/^['"]|['"]$/g, '')` (quote characters also include the
backtick): drop one leading and one trailing quote character. -/
def stripQuoteEnds (l : List Char) : List Char :=
  let l1 :=
    match l with
    | c :: rest => if isQuoteChar c then rest else c :: rest
    | [] => []
  match l1.reverse with
  | c :: rest => if isQuoteChar c then rest.reverse else l1
  | [] => []

/-- A character of the related-model class `[^'"\s,\)]` (the backtick is not
excluded by the source pattern). -/
def relModelChar (c : Char) : Bool :=
  !(c = '\x27' || c = '"' || isJsWsChar c || c = ',' || c = ')')

/-- Match `/^['"]?([^'"\s,\)]+)['"]?/` (anchored): the first positional
argument, i.e. the related model name. -/
def matchRelModel (cleanArgs : List Char) : Option (List Char) :=
  match cleanArgs with
  | [] => none
  | c :: rest =>
    if isQuoteChar c then
      let run := rest.takeWhile relModelChar
      if run ≠ [] then some run
      else
        -- the optional opening quote backtracks to empty
        let run2 := (c :: rest).takeWhile relModelChar
        if run2 ≠ [] then some run2 else none
    else
      let run := (c :: rest).takeWhile relModelChar
      if run ≠ [] then some run else none

/-- Match `/on_delete\s*=\s*models\.(\w+)/` at the head. -/
def matchOnDeleteAt (l : List Char) : Option (List Char) :=
  if !startsWithL l "on_delete".toList then none
  else
    let r1 := l.drop 9
    let ws := r1.takeWhile isJsWsChar
    match r1.drop ws.length with
    | '=' :: r3 =>
      let ws2 := r3.takeWhile isJsWsChar
      let r4 := r3.drop ws2.length
      if !startsWithL r4 "models.".toList then none
      else
        let w := (r4.drop 7).takeWhile isWordChar
        if w = [] then none else some w
    | _ => none

/-- Match `/max_length\s*=\s*(\d+)/` at the head (presence only). -/
def matchMaxLenAt (l : List Char) : Option Unit :=
  if !startsWithL l "max_length".toList then none
  else
    let r1 := l.drop 10
    let ws := r1.takeWhile isJsWsChar
    match r1.drop ws.length with
    | '=' :: r3 =>
      let ws2 := r3.takeWhile isJsWsChar
      let r4 := r3.drop ws2.length
      if r4.takeWhile isDigitChar = [] then none else some ()
    | _ => none

/-- `parseFieldArguments`, in the source's exact order of effects. -/
def parseFieldArguments (args : List Char) (f0 : DjangoField) (fieldType : String) : DjangoField :=
  let ca := jsTrimL (collapseWs args)
  let f := f0
  let f :=
    if containsSubL ca "null=True".toList then { f with nullable := true }
    else if containsSubL ca "null=False".toList then { f with nullable := false }
    else f
  let f := if containsSubL ca "blank=True".toList then { f with nullable := true } else f
  let f := if containsSubL ca "unique=True".toList then { f with unique := true } else f
  let f :=
    match scanFirst matchDefaultAt ca with
    | some v => { f with defaultValue := some (String.mk (stripQuoteEnds (jsTrimL v))) }
    | none => f
  let f :=
    if fieldType = "ForeignKey" then
      match matchRelModel ca with
      | some m =>
        let rel : DjangoRel :=
          { model := String.mk m, field := "id",
            onDelete := (scanFirst matchOnDeleteAt ca).map String.mk }
        let f := { f with foreignKey := some rel }
        if !containsSubL ca "null=True".toList && !containsSubL ca "blank=True".toList then
          { f with nullable := false }
        else f
      | none => f
    else if fieldType = "OneToOneField" then
      match matchRelModel ca with
      | some m =>
        let rel : DjangoRel :=
          { model := String.mk m, field := "id",
            onDelete := (scanFirst matchOnDeleteAt ca).map String.mk }
        let f := { f with oneToOneField := some rel }
        if !containsSubL ca "null=True".toList && !containsSubL ca "blank=True".toList then
          { f with nullable := false }
        else f
      | none => f
    else if fieldType = "ManyToManyField" then
      match matchRelModel ca with
      | some m =>
        let m2m : DjangoM2M :=
          { model := String.mk m,
            through := (scanFirst (matchKeyQuoted "through".toList) ca).map String.mk }
        { f with manyToManyField := some m2m, type := "json" }
      | none => f
    else f
  let f := match scanFirst matchMaxLenAt ca with
           | some _ => { f with type := "string" }
           | none => f
  let f :=
    if containsSubL ca "primary_key=True".toList then
      { f with primaryKey := true, nullable := false }
    else f
  if containsSubL ca "AutoField".toList || containsSubL ca "BigAutoField".toList then
    { f with primaryKey := true, nullable := false, type := "integer" }
  else f

/-- Build a `DjangoField` from a matched declaration line (identical for the
single-line and multi-line branches of the source). -/
def buildField (fieldName fieldType : String) (fieldArgs : List Char) : DjangoField :=
  let f : DjangoField :=
    { name := fieldName, type := mapDjangoType fieldType, nullable := true,
      primaryKey := false, unique := false, defaultValue := none,
      foreignKey := none, oneToOneField := none, manyToManyField := none,
      description := none }
  let f := parseFieldArguments fieldArgs f fieldType
  let f :=
    if fieldType = "AutoField" || fieldType = "BigAutoField" then
      { f with primaryKey := true, nullable := false, type := "integer" }
    else f
  if fieldType = "ForeignKey" && f.foreignKey.isSome then { f with type := "integer" }
  else if fieldType = "OneToOneField" && f.oneToOneField.isSome then { f with type := "integer" }
  else if fieldType = "ManyToManyField" && f.manyToManyField.isSome then { f with type := "json" }
  else f

/-- The inner `while` of the multi-line fallback: append trimmed lines until
the parenthesis balance returns to zero; yields the accumulated text and the
number of extra lines consumed. -/
def multilineCollect : List (List Char) → List Char → Int → List Char × Nat
  | [], acc, _ => (acc, 0)
  | raw :: rest, acc, bc =>
    if bc ≤ 0 then (acc, 0)
    else
      let res := multilineCollect rest (acc ++ ' ' :: jsTrimL raw)
        (bc + Int.ofNat (countChar raw '(') - Int.ofNat (countChar raw ')'))
      (res.1, res.2 + 1)

/-- The field-declaration loop, recursing structurally on a line budget:
each step advances `i` by at least one, so `lines.length + 1` always
suffices; the zero-budget arm is reached only with `i` past the end, where it
agrees with the `lines.length ≤ i` arm. -/
def parseFieldsLoop (lines : List (List Char)) :
    Nat → Nat → List DjangoField → List DjangoField
  | 0, _, acc => acc.reverse
  | fuel + 1, i, acc =>
    if lines.length ≤ i then acc.reverse
    else
      let line := jsTrimL (lines.getD i [])
      if line = [] || startsWithL line "#".toList || startsWithL line "class ".toList
          || startsWithL line "def ".toList || startsWithL line tripleQuote then
        parseFieldsLoop lines fuel (i + 1) acc
      else
        match matchFieldLine line with
        | some (nm, ty, args) =>
          if nm = "Meta" || ty = "Meta" then parseFieldsLoop lines fuel (i + 1) acc
          else parseFieldsLoop lines fuel (i + 1) (buildField nm ty args :: acc)
        | none =>
          if containsSubL line "models.".toList && containsSubL line "(".toList then
            let bc : Int := Int.ofNat (countChar line '(') - Int.ofNat (countChar line ')')
            let full := multilineCollect (lines.drop (i + 1)) line bc
            match matchMultiFieldLine full.1 with
            | some (nm, ty, args) =>
              parseFieldsLoop lines fuel (i + 1 + full.2) (buildField nm ty args :: acc)
            | none => parseFieldsLoop lines fuel (i + 1) acc
          else parseFieldsLoop lines fuel (i + 1) acc

def parseFields (classContent : List Char) : List DjangoField :=
  parseFieldsLoop (splitLinesL classContent) (splitLinesL classContent).length.succ 0 []

def metaDbTable (classContent : List Char) : Option String :=
  match scanFirst matchMetaAt classContent with
  | some metaContent =>
    (scanFirst (matchKeyQuoted "db_table".toList) metaContent).map String.mk
  | none => none

def metaDocstring (classContent : List Char) : Option String :=
  (scanFirst matchDocAt classContent).map (fun l => jsTrim (String.mk l))

/-- The synthesised `id` column Django adds when no field is a primary key. -/
def idField : DjangoField :=
  { name := "id", type := "integer", nullable := false, primaryKey := true,
    unique := true, defaultValue := none, foreignKey := none, oneToOneField := none,
    manyToManyField := none, description := some "Auto-generated primary key (Django default)" }

/-- Prepend the implicit primary key when no parsed field carries one. -/
def addImplicitPk (m : DjangoModel) : DjangoModel :=
  if m.fields.any (fun f => f.primaryKey) then m
  else { m with fields := idField :: m.fields }

def modelOfClassRaw (clean : List Char) (name : String) (matchEnd : Nat) : DjangoModel :=
  let body := slice clean matchEnd (findClassEnd clean matchEnd)
  { name := name,
    tableName := metaDbTable body,
    fields := parseFields body,
    description := metaDocstring body }

/-- All models of the source text, before primary-key synthesis: every
`class X(...)` whose inheritance list mentions `models.Model`. -/
def extractModelsRaw (content : List Char) : List DjangoModel :=
  let clean := cleanDjango content
  (scanClasses 0 clean).filterMap (fun x =>
    if containsSub x.2.1 "models.Model" then some (modelOfClassRaw clean x.1 x.2.2)
    else none)

/-! ### `convertDjangoToSchema` -/

def tableNameOf (m : DjangoModel) : String :=
  match m.tableName with
  | some s => if s = "" then snakeCase m.name else s
  | none => snakeCase m.name

/-- `modelLookup[n]`: the `Record` built by successive assignment returns the
last model with that name. -/
def lookupModelByName (models : List DjangoModel) (n : String) : Option DjangoModel :=
  models.reverse.find? (fun m => m.name = n)

/-- `tableToModelLookup[t]`. -/
def lookupModelByTable (models : List DjangoModel) (t : String) : Option DjangoModel :=
  models.reverse.find? (fun m => tableNameOf m = t)

def mapDjangoOnDelete : Option String → Option String
  | some a =>
    [("CASCADE", "CASCADE"), ("SET_NULL", "SET NULL"), ("PROTECT", "RESTRICT"),
     ("RESTRICT", "RESTRICT"), ("DO_NOTHING", "NO ACTION")].lookup a
  | none => none

/-- The placeholder foreign key of the first pass: ids blank until the second
pass, `onDelete` mapped with a `CASCADE` fallback, `onUpdate` `CASCADE`. -/
def mkPlaceholderFk (r : DjangoRel) : ForeignKey :=
  { tableId := "", columnId := "",
    onDelete := some ((mapDjangoOnDelete r.onDelete).getD "CASCADE"),
    onUpdate := some "CASCADE" }

def mkImportedColumn (tn : String) (importId cnt : Nat) (f : DjangoField) : Column :=
  { id := tn ++ "_" ++ f.name ++ "_" ++ toString importId ++ "_" ++ toString cnt,
    name := f.name, type := f.type, nullable := f.nullable, primaryKey := f.primaryKey,
    unique := f.unique, defaultValue := f.defaultValue,
    foreignKey :=
      match f.foreignKey with
      | some r => some (mkPlaceholderFk r)
      | none =>
        match f.oneToOneField with
        | some r => some (mkPlaceholderFk r)
        | none => none,
    description := f.description }

/-- First pass, column construction: `columnCounter` is threaded through all
tables of the import. -/
def buildColumns (tn : String) (importId : Nat) : Nat → List DjangoField → List Column
  | _, [] => []
  | cnt, f :: fs => mkImportedColumn tn importId cnt f :: buildColumns tn importId (cnt + 1) fs

def mkImportedTable (m : DjangoModel) (importId index cnt : Nat) : Table :=
  let tn := tableNameOf m
  { id := tn, name := tn,
    position := { x := 100 + (((index % 3 : Nat) : Rat)) * 300,
                  y := 100 + (((index / 3 : Nat) : Rat)) * 250 },
    columns := buildColumns tn importId cnt m.fields,
    description := m.description, color := none }

def buildTables (importId : Nat) : List DjangoModel → Nat → Nat → List Table
  | [], _, _ => []
  | m :: rest, index, cnt =>
    mkImportedTable m importId index cnt ::
      buildTables importId rest (index + 1) (cnt + m.fields.length)

/-- Second pass target search: the referenced model's primary-key column, its
`id` column, or its first column. -/
def findTargetColumn (tt : Table) : Option Column :=
  match tt.columns.find? (fun c => c.primaryKey) with
  | some c => some c
  | none =>
    match tt.columns.find? (fun c => c.name = "id") with
    | some c => some c
    | none => tt.columns.head?

/-- All guards of the second pass for one column; yields target table, target
column and the Django field carrying the relation. -/
def resolveTarget (models : List DjangoModel) (tables : List Table) (table : Table)
    (c : Column) : Option (Table × Column × DjangoField) :=
  match c.foreignKey with
  | none => none
  | some fk =>
    if fk.tableId ≠ "" then none
    else
      let dm? :=
        match lookupModelByTable models table.name with
        | some m => some m
        | none => lookupModelByName models (pascalCase table.name)
      match dm? with
      | none => none
      | some dm =>
        match dm.fields.find? (fun f => f.name = c.name) with
        | none => none
        | some df =>
          match (match df.foreignKey with
                 | some r => some r
                 | none => df.oneToOneField) with
          | none => none
          | some r =>
            match lookupModelByName models r.model with
            | none => none
            | some rdm =>
              let ttn :=
                match rdm.tableName with
                | some s => if s = "" then snakeCase r.model else s
                | none => snakeCase r.model
              match tables.find? (fun t => t.name = ttn) with
              | none => none
              | some tt =>
                match findTargetColumn tt with
                | none => none
                | some tc => some (tt, tc, df)

/-- Second pass for one column: fill in the foreign key's target ids and
emit the `many-to-one`/`one-to-one` relationship. -/
def resolveColumn (models : List DjangoModel) (tables : List Table) (table : Table)
    (c : Column) : Column × Option Relationship :=
  match resolveTarget models tables table c with
  | none => (c, none)
  | some (tt, tc, df) =>
    let newFk := c.foreignKey.map (fun fk => { fk with tableId := tt.id, columnId := tc.id })
    let c2 := { c with foreignKey := newFk }
    let rel : Relationship :=
      { id := "rel_" ++ table.id ++ "_" ++ c.name ++ "_" ++ tt.id ++ "_" ++ tc.name,
        sourceTableId := table.id, sourceColumnId := c.id,
        targetTableId := tt.id, targetColumnId := tc.id,
        type := if df.oneToOneField.isSome then "one-to-one" else "many-to-one",
        name := none,
        onDelete := jsOrStr (c.foreignKey.bind (fun fk => fk.onDelete))
                      (df.oneToOneField.bind (fun r => r.onDelete)),
        onUpdate := some "CASCADE" }
    (c2, some rel)

/-- The column updates of the second pass applied to one table. -/
def resolveTable (models : List DjangoModel) (tables : List Table) (t : Table) : Table :=
  { t with columns := t.columns.map (fun c => (resolveColumn models tables t c).1) }

/-- Second pass over all tables.  The source mutates `column.foreignKey` in
place while iterating; no field read by the pass is ever written by it, so the
in-place loop equals this pure two-component computation. -/
def secondPass (models : List DjangoModel) (tables : List Table) :
    List Table × List Relationship :=
  (tables.map (resolveTable models tables),
   tables.flatMap (fun t =>
     t.columns.filterMap (fun c => (resolveColumn models tables t c).2)))

/-- Third pass: a `many-to-many` relationship (with empty column ids) per
resolvable `ManyToManyField`. -/
def thirdPass (models : List DjangoModel) (tables : List Table) : List Relationship :=
  tables.flatMap (fun t =>
    match lookupModelByTable models t.name with
    | none => []
    | some dm =>
      dm.fields.filterMap (fun df =>
        match df.manyToManyField with
        | none => none
        | some m2m =>
          match lookupModelByName models m2m.model with
          | none => none
          | some rdm =>
            let ttn :=
              match rdm.tableName with
              | some s => if s = "" then snakeCase m2m.model else s
              | none => snakeCase m2m.model
            match tables.find? (fun tt => tt.name = ttn) with
            | none => none
            | some tt =>
              some { id := "m2m_" ++ t.id ++ "_" ++ tt.id ++ "_" ++ df.name,
                     sourceTableId := t.id, sourceColumnId := "",
                     targetTableId := tt.id, targetColumnId := "",
                     type := "many-to-many", name := some df.name,
                     onDelete := none, onUpdate := none }))

def convertDjangoToSchema (models : List DjangoModel) (importId : Nat) (now : String) :
    Schema :=
  let tables0 := buildTables importId models 0 0
  let pass2 := secondPass models tables0
  { id := "imported_" ++ toString importId,
    name := "Imported Django Schema",
    description := some "Schema imported from Django models",
    tables := pass2.1,
    relationships := pass2.2 ++ thirdPass models pass2.1,
    createdAt := now, updatedAt := now, version := 1 }

/-- `parseDjangoModels`: clean, extract classes, parse fields, synthesise the
implicit primary key, convert. -/
def parseDjangoModels (content : String) (importId : Nat) (now : String) : Schema :=
  convertDjangoToSchema ((extractModelsRaw content.toList).map addImplicitPk) importId now

def ExportManager.export (schema : Schema) (options : ExportOptions) (now : String) :
    Except String String :=
  if options.format = "json" then
    .ok (Json.render 0 (exportToJSONVal schema (options.includePositions.getD true) now))
  else if options.format = "sql" then
    .ok (exportToSQL schema (options.sqlDialect.getD SQLDialect.postgresql) now)
  else if options.format = "prisma" then exportToPrisma schema
  else if options.format = "django" then .ok (exportToDjango schema)
  else if options.format = "laravel" then .ok (exportToLaravel schema)
  else if options.format = "typeorm" then .ok (exportToTypeORM schema)
  else .error ("Unsupported export format: " ++ options.format)

/-! ## Helper lemmas -/

theorem lookup_none_of_not_mem_keys {β : Type} (l : List (String × β)) (s : String)
    (h : s ∉ l.map Prod.fst) : List.lookup s l = none := by
  induction l with
  | nil => rfl
  | cons p rest ih =>
    obtain ⟨k, v⟩ := p
    simp only [List.map_cons, List.mem_cons, not_or] at h
    have hne : (s == k) = false := beq_eq_false_iff_ne.mpr h.1
    simp only [List.lookup, hne]
    exact ih h.2

/-! ## Claim theorems -/

/-- **C6.** For every value of the `ColumnType` enumeration and every SQL
dialect, and likewise for the Prisma target, the type-mapping function
returns a non-empty string (it cannot throw: it is a total lookup); and for
any type string outside the enumeration it returns the target's generic
string-like fallback type (`typeMap[dialect]['string']`, resp. `String`).
The first conjunct is proved for *every* string, which subsumes the
enumeration. -/
theorem c6_type_map_total (s : String) (d : SQLDialect) :
    (mapColumnType s d ≠ "" ∧ mapPrismaType s ≠ "") ∧
    (s ∉ COLUMN_TYPES →
      mapColumnType s d = mapColumnType "string" d ∧ mapPrismaType s = "String") := by
  have hkeys : (sqlTypeMap d).map Prod.fst = COLUMN_TYPES := by
    cases d <;> rfl
  have hpkeys : prismaTypeMap.map Prod.fst = COLUMN_TYPES := by rfl
  have hfb : (List.lookup "string" (sqlTypeMap d)).getD "" ≠ "" := by
    cases d <;> decide
  constructor
  · constructor
    · unfold mapColumnType
      cases hl : List.lookup s (sqlTypeMap d) with
      | none => simpa using hfb
      | some v =>
        by_cases hv : v = ""
        · simpa [hv] using hfb
        · simp [hv]
    · unfold mapPrismaType
      cases hl : List.lookup s prismaTypeMap with
      | none => simp
      | some v =>
        by_cases hv : v = "" <;> simp [hv]
  · intro hmem
    have h1 : List.lookup s (sqlTypeMap d) = none :=
      lookup_none_of_not_mem_keys _ _ (by rw [hkeys]; exact hmem)
    have h2 : List.lookup s prismaTypeMap = none :=
      lookup_none_of_not_mem_keys _ _ (by rw [hpkeys]; exact hmem)
    constructor
    · unfold mapColumnType
      rw [h1]
      cases d <;> decide
    · unfold mapPrismaType
      rw [h2]

/-- Witness for C6 at the out-of-enumeration type string `"florp"` and the
MySQL dialect. -/
theorem c6_type_map_total_witness :
    "florp" ∉ COLUMN_TYPES ∧
      mapColumnType "florp" SQLDialect.mysql = "VARCHAR(255)" ∧
      mapPrismaType "florp" = "String" := by
  have h := (c6_type_map_total "florp" SQLDialect.mysql).2 (by decide)
  refine ⟨by decide, ?_, h.2⟩
  rw [h.1]
  decide

/-! ### C4: primary-key emission -/

def c4SingleCol : Column :=
  { id := "c1", name := "id", type := "integer", nullable := false, primaryKey := true,
    unique := false, defaultValue := none, foreignKey := none, description := none }

def c4SingleTable : Table :=
  { id := "t1", name := "t", position := { x := 0, y := 0 }, columns := [c4SingleCol],
    description := none, color := none }

/-- **C4, counterexample.** The claim says a table with exactly one
`primaryKey` column renders the key inline on that column for *every*
dialect; for SQL Server the column definition carries no inline
`PRIMARY KEY` and the key is emitted as a table-level constraint instead. -/
theorem c4_counterexample :
    pkCount c4SingleTable = 1 ∧
    columnDef c4SingleTable c4SingleCol SQLDialect.sqlserver = "\"id\" INT NOT NULL" ∧
    inlinePkApplies c4SingleTable c4SingleCol SQLDialect.sqlserver = false ∧
    tableConstraints c4SingleTable SQLDialect.sqlserver = ["PRIMARY KEY (\"id\")"] := by
  refine ⟨by decide, by decide, by decide, by decide⟩

/-- **C4 (amended).** For every dialect and table: with more than one
`primaryKey` column the `CREATE TABLE` carries exactly one table-level
`PRIMARY KEY (...)` constraint listing those columns and no column definition
takes the inline `PRIMARY KEY` branch; with exactly one `primaryKey` column
the key is rendered inline on exactly the primary-key columns for PostgreSQL,
MySQL and SQLite, while SQL Server emits it as a table-level constraint with
no inline rendering. -/
theorem c4_primary_key_emission (d : SQLDialect) (t : Table) :
    (pkCount t > 1 →
      tableConstraints t d = [compositePkConstraint t d] ∧
        ∀ c ∈ t.columns, inlinePkApplies t c d = false) ∧
    (pkCount t = 1 →
      (d ≠ SQLDialect.sqlserver →
        tableConstraints t d = [] ∧
          ∀ c ∈ t.columns, inlinePkApplies t c d = c.primaryKey) ∧
      (d = SQLDialect.sqlserver →
        tableConstraints t d = [compositePkConstraint t d] ∧
          ∀ c ∈ t.columns, inlinePkApplies t c d = false)) := by
  unfold pkCount tableConstraints inlinePkApplies pkCount
  constructor
  · intro hgt
    constructor
    · simp [hgt]
    · intro c _
      simp [Nat.ne_of_gt hgt]
  · intro heq
    constructor
    · intro hd
      constructor
      · simp [heq, hd]
      · intro c _
        simp [heq, hd]
    · intro hd
      constructor
      · simp [heq, hd]
      · intro c _
        simp [heq, hd]

def c4CompColA : Column :=
  { id := "ca", name := "a", type := "integer", nullable := false, primaryKey := true,
    unique := false, defaultValue := none, foreignKey := none, description := none }

def c4CompColB : Column :=
  { id := "cb", name := "b", type := "integer", nullable := false, primaryKey := true,
    unique := false, defaultValue := none, foreignKey := none, description := none }

def c4CompTable : Table :=
  { id := "t2", name := "t2", position := { x := 0, y := 0 },
    columns := [c4CompColA, c4CompColB], description := none, color := none }

/-- Witness for C4: a two-column composite key under MySQL yields the single
table-level constraint and no inline branch; a single-column key under
PostgreSQL yields an empty constraint list and the inline branch on the key
column. -/
theorem c4_primary_key_emission_witness :
    (pkCount c4CompTable > 1 ∧
      tableConstraints c4CompTable SQLDialect.mysql = ["PRIMARY KEY (\x60a\x60, \x60b\x60)"] ∧
      inlinePkApplies c4CompTable c4CompColA SQLDialect.mysql = false) ∧
    (pkCount c4SingleTable = 1 ∧
      tableConstraints c4SingleTable SQLDialect.postgresql = [] ∧
      inlinePkApplies c4SingleTable c4SingleCol SQLDialect.postgresql = true) := by
  constructor
  · have h := (c4_primary_key_emission SQLDialect.mysql c4CompTable).1 (by decide)
    refine ⟨by decide, ?_, h.2 c4CompColA (by decide)⟩
    rw [h.1]; decide
  · have h := ((c4_primary_key_emission SQLDialect.postgresql c4SingleTable).2
      (by decide)).1 (by decide)
    refine ⟨by decide, h.1, ?_⟩
    rw [h.2 c4SingleCol (by decide)]
    decide

/-! ### C5 / C8: alter-statement emission -/

/-- The four-way resolution check of the relationship pass, together with the
source column being free of a column-level foreign key. -/
theorem relAlterFor_isSome_iff (schema : Schema) (d : SQLDialect) (r : Relationship) :
    (relAlterFor schema d r).isSome ↔
      (∃ st tt sc tc,
        schema.tables.find? (fun tb => tb.id = r.sourceTableId) = some st ∧
        schema.tables.find? (fun tb => tb.id = r.targetTableId) = some tt ∧
        st.columns.find? (fun c => c.id = r.sourceColumnId) = some sc ∧
        tt.columns.find? (fun c => c.id = r.targetColumnId) = some tc ∧
        sc.foreignKey = none) := by
  unfold relAlterFor
  cases h1 : schema.tables.find? (fun tb => tb.id = r.sourceTableId) with
  | none => simp [h1]
  | some st =>
    cases h2 : schema.tables.find? (fun tb => tb.id = r.targetTableId) with
    | none => simp [h1, h2]
    | some tt =>
      cases h3 : st.columns.find? (fun c => c.id = r.sourceColumnId) with
      | none => simp [h1, h2, h3]
      | some sc =>
        cases h4 : tt.columns.find? (fun c => c.id = r.targetColumnId) with
        | none => simp [h1, h2, h3, h4]
        | some tc =>
          cases hfk : sc.foreignKey with
          | none => simp [h1, h2, h3, h4, hfk]
          | some fk => simp [h1, h2, h3, h4, hfk]

/-- Resolution check of the column-level foreign-key pass (including the
truthiness test on the resolved column's name). -/
def fkResolves (schema : Schema) (fk : ForeignKey) : Bool :=
  match schema.tables.find? (fun tb => tb.id = fk.tableId) with
  | none => false
  | some target =>
    match target.columns.find? (fun tc => tc.id = fk.columnId) with
    | none => false
    | some tcol => tcol.name ≠ ""

theorem fkAlterFor_isSome_iff (schema : Schema) (d : SQLDialect) (t : Table) (c : Column) :
    (fkAlterFor schema d t c).isSome ↔
      (∃ fk, c.foreignKey = some fk ∧ fkResolves schema fk = true) := by
  unfold fkAlterFor fkResolves
  cases hfk : c.foreignKey with
  | none => simp
  | some fk =>
    cases h1 : schema.tables.find? (fun tb => tb.id = fk.tableId) with
    | none => simp [h1]
    | some target =>
      cases h2 : target.columns.find? (fun tc => tc.id = fk.columnId) with
      | none => simp [h1, h2]
      | some tcol =>
        by_cases hn : tcol.name = "" <;> simp [h1, h2, hn]

def c5PkC : Column :=
  { id := "cc", name := "c_id", type := "integer", nullable := false, primaryKey := true,
    unique := false, defaultValue := none, foreignKey := none, description := none }

def c5TabC : Table :=
  { id := "tc", name := "ctab", position := { x := 0, y := 0 }, columns := [c5PkC],
    description := none, color := none }

def c5ColB : Column :=
  { id := "cb", name := "b_id", type := "integer", nullable := false, primaryKey := true,
    unique := false, defaultValue := none, foreignKey := none, description := none }

def c5TabB : Table :=
  { id := "tb", name := "btab", position := { x := 0, y := 0 }, columns := [c5ColB],
    description := none, color := none }

/-- A column carrying a foreign key to table `tc` — a *different* target than
the relationship below. -/
def c5ColA : Column :=
  { id := "ca", name := "a_ref", type := "integer", nullable := false, primaryKey := false,
    unique := false, defaultValue := none,
    foreignKey := some { tableId := "tc", columnId := "cc", onDelete := none, onUpdate := none },
    description := none }

def c5TabA : Table :=
  { id := "ta", name := "atab", position := { x := 0, y := 0 }, columns := [c5ColA],
    description := none, color := none }

/-- A fully resolvable relationship from `atab.a_ref` to `btab.b_id`. -/
def c5Rel : Relationship :=
  { id := "r", sourceTableId := "ta", sourceColumnId := "ca", targetTableId := "tb",
    targetColumnId := "cb", type := "many-to-one", name := none,
    onDelete := none, onUpdate := none }

def c5Schema : Schema :=
  { id := "s", name := "s", description := none, tables := [c5TabA, c5TabB, c5TabC],
    relationships := [c5Rel], createdAt := "c", updatedAt := "u", version := 1 }

/-- **C5, counterexample.** The claim says the relationship `ALTER` is
suppressed only when the source column already declares *that same*
`ForeignKey`.  Here all four references of the relationship resolve and the
source column's foreign key targets a different table (`tc`, not the
relationship's `tb`), yet no statement is produced: the code suppresses on
*any* column-level foreign key. -/
theorem c5_counterexample :
    c5Schema.tables.find? (fun tb => tb.id = c5Rel.sourceTableId) = some c5TabA ∧
    c5Schema.tables.find? (fun tb => tb.id = c5Rel.targetTableId) = some c5TabB ∧
    c5TabA.columns.find? (fun c => c.id = c5Rel.sourceColumnId) = some c5ColA ∧
    c5TabB.columns.find? (fun c => c.id = c5Rel.targetColumnId) = some c5ColB ∧
    c5ColA.foreignKey =
      some { tableId := "tc", columnId := "cc", onDelete := none, onUpdate := none } ∧
    c5Rel.targetTableId = "tb" ∧ ("tb" : String) ≠ "tc" ∧
    relAlterFor c5Schema SQLDialect.postgresql c5Rel = none := by
  refine ⟨by decide, by decide, by decide, by decide, by decide, by decide, by decide, by decide⟩

/-- **C5 (amended).** A schema-level relationship produces an
`ALTER TABLE ... ADD CONSTRAINT ... FOREIGN KEY` statement iff its source
table, target table, source column and target column all resolve *and* the
source column declares no column-level `ForeignKey` at all (whether or not
that foreign key matches the relationship's target); every produced statement
appears in the `exportToSQL` statement list. -/
theorem c5_relationship_emission (schema : Schema) (d : SQLDialect) (now : String)
    (r : Relationship) :
    ((relAlterFor schema d r).isSome ↔
      (∃ st tt sc tc,
        schema.tables.find? (fun tb => tb.id = r.sourceTableId) = some st ∧
        schema.tables.find? (fun tb => tb.id = r.targetTableId) = some tt ∧
        st.columns.find? (fun c => c.id = r.sourceColumnId) = some sc ∧
        tt.columns.find? (fun c => c.id = r.targetColumnId) = some tc ∧
        sc.foreignKey = none)) ∧
    (∀ stmt, relAlterFor schema d r = some stmt → r ∈ schema.relationships →
      stmt ∈ exportToSQLStatements schema d now) := by
  refine ⟨relAlterFor_isSome_iff schema d r, ?_⟩
  intro stmt hs hr
  unfold exportToSQLStatements
  refine List.mem_append_right _ ?_
  exact List.mem_filterMap.mpr ⟨r, hr, hs⟩

/-- Witness for C5: the counterexample schema's relationship is suppressed
(source column carries a foreign key), and after erasing that foreign key the
same relationship is emitted and its statement occurs in the output. -/
theorem c5_relationship_emission_witness :
    relAlterFor c5Schema SQLDialect.postgresql c5Rel = none ∧
    c5Rel ∈ c5Schema.relationships ∧
    ("ALTER TABLE \"atab\" ADD CONSTRAINT \"rel_atab_btab\" FOREIGN KEY (\"a_ref\")" ++
        " REFERENCES \"btab\"(\"b_id\");") ∈
      exportToSQLStatements
        { c5Schema with tables :=
            [{ c5TabA with columns := [{ c5ColA with foreignKey := none }] }, c5TabB, c5TabC] }
        SQLDialect.postgresql "T" := by
  refine ⟨by decide, by decide, ?_⟩
  refine (c5_relationship_emission _ SQLDialect.postgresql "T" c5Rel).2 _ (by decide) (by decide)

theorem mem_sortedTables {schema : Schema} {t : Table} (h : t ∈ schema.tables) :
    t ∈ sortedTables schema := by
  unfold sortedTables
  by_cases hf : tableHasForeignKeys t
  · exact List.mem_append_right _ (List.mem_filter.mpr ⟨h, by simp [hf]⟩)
  · exact List.mem_append_left _ (List.mem_filter.mpr ⟨h, by simp [hf]⟩)

/-- **C8.** For every schema (in particular one with dangling
`Column.foreignKey` or `Relationship` references), `exportToSQL` is total —
it is a pure function of the schema — and: a column-level foreign key yields
its `ALTER TABLE` statement iff its reference resolves, so exactly the
dangling ones are omitted; a relationship whose target table is absent yields
no statement; and every table still contributes its `CREATE TABLE` statement
to the output. -/
theorem c8_dangling_reference_tolerance (schema : Schema) (d : SQLDialect) (now : String) :
    (∀ t ∈ schema.tables, ∀ c ∈ t.columns, ∀ fk, c.foreignKey = some fk →
      ((fkAlterFor schema d t c).isSome ↔ fkResolves schema fk = true)) ∧
    (∀ r ∈ schema.relationships,
      schema.tables.find? (fun tb => tb.id = r.targetTableId) = none →
        relAlterFor schema d r = none) ∧
    (∀ t ∈ schema.tables,
      ("CREATE TABLE " ++ formatTableName t.name d ++ " (") ∈
        exportToSQLStatements schema d now) := by
  refine ⟨?_, ?_, ?_⟩
  · intro t _ c _ fk hfk
    rw [fkAlterFor_isSome_iff]
    constructor
    · rintro ⟨fk2, hfk2, hres⟩
      rw [hfk] at hfk2
      injection hfk2 with h
      rwa [h]
    · intro hres
      exact ⟨fk, hfk, hres⟩
  · intro r _ htgt
    rw [← Option.not_isSome_iff_eq_none, relAlterFor_isSome_iff]
    rintro ⟨st, tt, sc, tc, _, h2, _⟩
    rw [htgt] at h2
    exact Option.noConfusion h2
  · intro t ht
    unfold exportToSQLStatements
    refine List.mem_append_left _ (List.mem_append_left _ (List.mem_append_right _ ?_))
    refine List.mem_flatMap.mpr ⟨t, mem_sortedTables ht, ?_⟩
    unfold createTableChunk
    exact List.mem_cons_self _ _

def c8DanglingCol : Column :=
  { id := "cx", name := "x_ref", type := "integer", nullable := true, primaryKey := false,
    unique := false, defaultValue := none,
    foreignKey := some { tableId := "missing", columnId := "nope", onDelete := none,
                         onUpdate := none },
    description := none }

def c8Table : Table :=
  { id := "tx", name := "xtab", position := { x := 0, y := 0 }, columns := [c8DanglingCol],
    description := none, color := none }

def c8Rel : Relationship :=
  { id := "rx", sourceTableId := "tx", sourceColumnId := "cx", targetTableId := "ghost",
    targetColumnId := "gc", type := "one-to-many", name := none,
    onDelete := none, onUpdate := none }

def c8Schema : Schema :=
  { id := "s8", name := "s8", description := none, tables := [c8Table],
    relationships := [c8Rel], createdAt := "c", updatedAt := "u", version := 1 }

/-- Witness for C8: a schema whose only foreign key and only relationship
both dangle still yields its `CREATE TABLE` statement, and both `ALTER`
statements are omitted. -/
theorem c8_dangling_reference_tolerance_witness :
    fkAlterFor c8Schema SQLDialect.postgresql c8Table c8DanglingCol = none ∧
    relAlterFor c8Schema SQLDialect.postgresql c8Rel = none ∧
    ("CREATE TABLE \"xtab\" (" ∈
      exportToSQLStatements c8Schema SQLDialect.postgresql "T") := by
  have h := c8_dangling_reference_tolerance c8Schema SQLDialect.postgresql "T"
  refine ⟨?_, ?_, ?_⟩
  · have hiff := h.1 c8Table (by decide) c8DanglingCol (by decide)
      { tableId := "missing", columnId := "nope", onDelete := none, onUpdate := none }
      (by decide)
    rw [← Option.not_isSome_iff_eq_none, hiff]
    decide
  · exact h.2.1 c8Rel (by decide) (by decide)
  · exact h.2.2 c8Table (by decide)

/-! ### C7: export dispatch -/

theorem prismaReverseStep_error {schema : Schema} {t : Table} {acc : List String}
    {r : Relationship} {e : String}
    (h : prismaReverseStep schema t acc r = Except.error e) : e = prismaScopeErr := by
  unfold prismaReverseStep at h
  repeat'
    first
      | exact Except.noConfusion h
      | (injection h with h'; exact h'.symm)
      | split at h
      | dsimp only at h

theorem foldlM_except_error {α β : Type} (f : β → α → Except String β) (P : String → Prop)
    (hf : ∀ b a e, f b a = Except.error e → P e) :
    ∀ (l : List α) (b : β) (e : String), List.foldlM f b l = Except.error e → P e := by
  intro l
  induction l with
  | nil =>
    intro b e h
    simp only [List.foldlM, pure, Except.pure] at h
    exact Except.noConfusion h
  | cons a as ih =>
    intro b e h
    rw [List.foldlM_cons] at h
    cases hfa : f b a with
    | error e2 =>
      rw [hfa] at h
      simp only [Bind.bind, Except.bind] at h
      injection h with h'
      exact h' ▸ hf b a e2 hfa
    | ok b2 =>
      rw [hfa] at h
      simp only [Bind.bind, Except.bind] at h
      exact ih b2 e h

theorem prismaReverseLines_error {schema : Schema} {t : Table} {e : String}
    (h : prismaReverseLines schema t = Except.error e) : e = prismaScopeErr := by
  unfold prismaReverseLines at h
  exact foldlM_except_error _ (fun e0 => e0 = prismaScopeErr)
    (fun _ _ _ hs => prismaReverseStep_error hs) _ _ _ h

theorem prismaModelLines_error {schema : Schema} {t : Table} {e : String}
    (h : prismaModelLines schema t = Except.error e) : e = prismaScopeErr := by
  unfold prismaModelLines at h
  cases hr : prismaReverseLines schema t with
  | error e2 =>
    rw [hr] at h
    injection h with h'
    exact h' ▸ prismaReverseLines_error hr
  | ok ls =>
    rw [hr] at h
    exact Except.noConfusion h

/-- The only exception `exportToPrisma` can raise is the reverse-relation
scope `ReferenceError`. -/
theorem exportToPrisma_error {schema : Schema} {e : String}
    (h : exportToPrisma schema = Except.error e) : e = prismaScopeErr := by
  unfold exportToPrisma at h
  cases hf : List.foldlM
      (fun (acc : List String) (t : Table) =>
        match prismaModelLines schema t with
        | Except.error e => (Except.error e : Except String (List String))
        | Except.ok ls => Except.ok (acc ++ ls))
      prismaHeader schema.tables with
  | error e2 =>
    rw [hf] at h
    injection h with h'
    refine h' ▸ foldlM_except_error _ (fun e0 => e0 = prismaScopeErr) ?_ _ _ _ hf
    intro b a e0 hs
    revert hs
    cases hm : prismaModelLines schema a with
    | error e3 =>
      intro hs
      injection hs with h2
      exact h2 ▸ prismaModelLines_error hm
    | ok ls =>
      intro hs
      exact Except.noConfusion hs
  | ok lines =>
    rw [hf] at h
    exact Except.noConfusion h

/-- **C7.** `ExportManager.export` fails with an error naming the format
exactly when `options.format` lies outside
`{json, sql, prisma, django, laravel, typeorm}`; for every format inside the
set it delegates, and the only error that can come back through the
dispatcher is the Prisma exporter's own reverse-relation `ReferenceError`
(never the unsupported-format error). -/
theorem c7_export_dispatch (schema : Schema) (options : ExportOptions) (now : String) :
    (options.format ∉ EXPORT_FORMATS →
      ExportManager.export schema options now =
        Except.error ("Unsupported export format: " ++ options.format)) ∧
    (options.format ∈ EXPORT_FORMATS →
      ∀ e, ExportManager.export schema options now = Except.error e →
        options.format = "prisma" ∧ e = prismaScopeErr) := by
  constructor
  · intro h
    simp only [EXPORT_FORMATS, List.mem_cons, List.not_mem_nil, or_false, not_or] at h
    obtain ⟨h1, h2, h3, h4, h5, h6⟩ := h
    unfold ExportManager.export
    rw [if_neg h1, if_neg h2, if_neg h3, if_neg h4, if_neg h5, if_neg h6]
  · intro hmem e he
    unfold ExportManager.export at he
    simp only [EXPORT_FORMATS, List.mem_cons, List.not_mem_nil, or_false] at hmem
    rcases hmem with h | h | h | h | h | h <;> rw [h] at he <;> simp at he
    exact ⟨h, exportToPrisma_error he⟩

def c7Schema : Schema :=
  { id := "s7", name := "s7", description := none, tables := [], relationships := [],
    createdAt := "c", updatedAt := "u", version := 1 }

/-- Witness for C7 at the unknown format `"yaml"`. -/
theorem c7_export_dispatch_witness :
    ("yaml" : String) ∉ EXPORT_FORMATS ∧
    ExportManager.export c7Schema
        { format := "yaml", sqlDialect := none, includePositions := none,
          includeDescriptions := none } "T" =
      Except.error "Unsupported export format: yaml" := by
  refine ⟨by decide, ?_⟩
  exact (c7_export_dispatch c7Schema
    { format := "yaml", sqlDialect := none, includePositions := none,
      includeDescriptions := none } "T").1 (by decide)

/-! ### C2: Django relationship resolution on the spec's example -/

def c2Source : String :=
  "class Post(models.Model):\n    author = models.ForeignKey(\x27User\x27, on_delete=models.CASCADE)\n\nclass User(models.Model):\n    pass\n"

def c2Schema : Schema := parseDjangoModels c2Source 0 "now"

set_option maxRecDepth 8000 in
/-- **C2.** On `class Post(models.Model)` with
`author = models.ForeignKey('User', on_delete=models.CASCADE)` and a
separately declared `class User(models.Model)`, `parseDjangoModels` returns
exactly one relationship, of type `many-to-one`, from the post table's
`author` column to the user table's primary-key column, and the `author`
column's ForeignKey `tableId`/`columnId` are filled in with the user table's
ids (not left empty).  (`Date.now()` is instantiated at `0`, which only fixes
the generated id suffixes.) -/
theorem c2_django_relationship_resolution :
    c2Schema.relationships =
      [{ id := "rel_post_author_user_id", sourceTableId := "post",
         sourceColumnId := "post_author_0_1", targetTableId := "user",
         targetColumnId := "user_id_0_2", type := "many-to-one", name := none,
         onDelete := some "CASCADE", onUpdate := some "CASCADE" }] ∧
    (c2Schema.tables.map (fun t => t.name)) = ["post", "user"] ∧
    (c2Schema.tables.map (fun t => t.columns.map (fun c => (c.name, c.foreignKey)))) =
      [[("id", none),
        ("author", some { tableId := "user", columnId := "user_id_0_2",
                          onDelete := some "CASCADE", onUpdate := some "CASCADE" })],
       [("id", none)]] ∧
    (c2Schema.tables.map (fun t =>
        (t.columns.filter (fun c => c.primaryKey)).map (fun c => c.id))) =
      [["post_id_0_0"], ["user_id_0_2"]] := by
  refine ⟨by decide, by decide, by decide, by decide⟩

/-! ### C3: primary-key synthesis -/

theorem addImplicitPk_of_nopk {m : DjangoModel}
    (h : m.fields.all (fun f => !f.primaryKey) = true) :
    addImplicitPk m = { m with fields := idField :: m.fields } := by
  unfold addImplicitPk
  have hany : m.fields.any (fun f => f.primaryKey) = false := by
    cases hq : m.fields.any (fun f => f.primaryKey) with
    | false => rfl
    | true =>
      obtain ⟨f, hf, hpk⟩ := List.any_eq_true.mp hq
      have := List.all_eq_true.mp h f hf
      simp [hpk] at this
  simp [hany]

theorem buildTables_get? (importId : Nat) :
    ∀ (models : List DjangoModel) (index cnt i : Nat) (m : DjangoModel),
      models.get? i = some m →
      ∃ idx2 cnt2, (buildTables importId models index cnt).get? i =
        some (mkImportedTable m importId idx2 cnt2) := by
  intro models
  induction models with
  | nil => intro _ _ i m h; simp at h
  | cons m0 rest ih =>
    intro index cnt i m h
    cases i with
    | zero =>
      simp at h
      subst h
      exact ⟨index, cnt, by simp [buildTables]⟩
    | succ j =>
      rw [List.get?_cons_succ] at h
      obtain ⟨idx2, cnt2, h2⟩ := ih (index + 1) (cnt + m0.fields.length) j m h
      exact ⟨idx2, cnt2, by simpa [buildTables] using h2⟩

theorem buildColumns_names (tn : String) (iid : Nat) :
    ∀ (cnt : Nat) (fs : List DjangoField),
      (buildColumns tn iid cnt fs).map (fun c => c.name) = fs.map (fun f => f.name) := by
  intro cnt fs
  induction fs generalizing cnt with
  | nil => rfl
  | cons f rest ih => simp [buildColumns, mkImportedColumn, ih]

theorem resolveColumn_fst (models : List DjangoModel) (tables : List Table)
    (table : Table) (c : Column) :
    (resolveColumn models tables table c).1.name = c.name ∧
    (resolveColumn models tables table c).1.type = c.type ∧
    (resolveColumn models tables table c).1.nullable = c.nullable ∧
    (resolveColumn models tables table c).1.primaryKey = c.primaryKey ∧
    (resolveColumn models tables table c).1.unique = c.unique := by
  unfold resolveColumn
  cases resolveTarget models tables table c with
  | none => exact ⟨rfl, rfl, rfl, rfl, rfl⟩
  | some x =>
    obtain ⟨tt, tc, df⟩ := x
    exact ⟨rfl, rfl, rfl, rfl, rfl⟩

/-- **C3.** For every Django source input, if the `i`-th recognised model
declares no field marked as a primary key (`primary_key=True` and
`AutoField`/`BigAutoField` are exactly what the parser marks `primaryKey`),
then the `i`-th table of the imported schema has as its first column a
synthesised `id` column with type `integer`, `primaryKey`, `NOT NULL` and
`unique`, prepended before all parsed fields (whose names follow in order). -/
theorem c3_primary_key_synthesis (content : String) (importId : Nat) (now : String)
    (i : Nat) (m : DjangoModel)
    (hm : (extractModelsRaw content.toList).get? i = some m)
    (hnopk : m.fields.all (fun f => !f.primaryKey) = true) :
    ∃ t, (parseDjangoModels content importId now).tables.get? i = some t ∧
      (∃ c, t.columns.head? = some c ∧ c.name = "id" ∧ c.type = "integer" ∧
        c.primaryKey = true ∧ c.nullable = false ∧ c.unique = true) ∧
      t.columns.map (fun c => c.name) = "id" :: m.fields.map (fun f => f.name) := by
  have hm' : ((extractModelsRaw content.toList).map addImplicitPk).get? i =
      some { m with fields := idField :: m.fields } := by
    rw [List.get?_map, hm]
    simp [addImplicitPk_of_nopk hnopk]
  obtain ⟨idx2, cnt2, hbt⟩ := buildTables_get? importId _ 0 0 i _ hm'
  have hdef : (parseDjangoModels content importId now).tables =
      (buildTables importId ((extractModelsRaw content.toList).map addImplicitPk) 0 0).map
        (resolveTable ((extractModelsRaw content.toList).map addImplicitPk)
          (buildTables importId ((extractModelsRaw content.toList).map addImplicitPk) 0 0)) :=
    rfl
  set models0 := (extractModelsRaw content.toList).map addImplicitPk with hmodels0
  set tables0 := buildTables importId models0 0 0 with htables0
  set T := mkImportedTable { m with fields := idField :: m.fields } importId idx2 cnt2 with hT
  set g := fun c => (resolveColumn models0 tables0 T c).1 with hg
  refine ⟨{ T with columns := T.columns.map g }, ?_, ?_, ?_⟩
  · rw [hdef, List.get?_map, hbt]
    rfl
  · have hcols : T.columns =
        mkImportedColumn (tableNameOf { m with fields := idField :: m.fields }) importId cnt2
            idField ::
          buildColumns (tableNameOf { m with fields := idField :: m.fields }) importId
            (cnt2 + 1) m.fields := rfl
    refine ⟨g (mkImportedColumn (tableNameOf { m with fields := idField :: m.fields })
      importId cnt2 idField), ?_, ?_, ?_, ?_, ?_, ?_⟩
    · show ({ T with columns := T.columns.map g }).columns.head? = _
      rw [hcols]
      rfl
    · exact (resolveColumn_fst models0 tables0 T _).1
    · exact (resolveColumn_fst models0 tables0 T _).2.1
    · exact (resolveColumn_fst models0 tables0 T _).2.2.2.1
    · exact (resolveColumn_fst models0 tables0 T _).2.2.1
    · exact (resolveColumn_fst models0 tables0 T _).2.2.2.2
  · show (T.columns.map g).map (fun c => c.name) = _
    rw [List.map_map]
    have hpt : ∀ c ∈ T.columns, (fun c => c.name) (g c) = c.name := by
      intro c _
      exact (resolveColumn_fst models0 tables0 T c).1
    calc (T.columns.map (fun c => (g c).name))
        = T.columns.map (fun c => c.name) := List.map_congr_left hpt
      _ = "id" :: m.fields.map (fun f => f.name) := by
          show (buildColumns _ importId cnt2 (idField :: m.fields)).map (fun c => c.name) = _
          rw [buildColumns_names]
          rfl

def c3Source : String := "class User(models.Model):\n    pass\n"

def c3Model : DjangoModel :=
  { name := "User", tableName := none, fields := [], description := none }

/-- Witness for C3: a model with an empty body (no fields at all, hence no
primary key) receives the synthesised leading `id` column. -/
theorem c3_primary_key_synthesis_witness :
    (extractModelsRaw c3Source.toList).get? 0 = some c3Model ∧
    c3Model.fields.all (fun f => !f.primaryKey) = true ∧
    (∃ t, (parseDjangoModels c3Source 1 "now").tables.get? 0 = some t ∧
      (∃ c, t.columns.head? = some c ∧ c.name = "id" ∧ c.type = "integer" ∧
        c.primaryKey = true ∧ c.nullable = false ∧ c.unique = true) ∧
      t.columns.map (fun c => c.name) = "id" :: c3Model.fields.map (fun f => f.name)) :=
  ⟨by decide, by decide,
   c3_primary_key_synthesis c3Source 1 "now" 0 c3Model (by decide) (by decide)⟩

/-! ### C9: layout frame effect -/

theorem mapIdxL_length {α β : Type} (f : Nat → α → β) :
    ∀ (s : Nat) (l : List α), (mapIdxL f s l).length = l.length := by
  intro s l
  induction l generalizing s with
  | nil => rfl
  | cons a as ih => simp [mapIdxL, ih]

theorem mapIdxL_get? {α β : Type} (f : Nat → α → β) :
    ∀ (s i : Nat) (l : List α), (mapIdxL f s l).get? i = (l.get? i).map (f (s + i)) := by
  intro s i l
  induction l generalizing s i with
  | nil => simp [mapIdxL]
  | cons a as ih =>
    cases i with
    | zero => simp [mapIdxL]
    | succ j =>
      rw [mapIdxL, List.get?_cons_succ, List.get?_cons_succ, ih (s + 1) j]
      rw [show s + 1 + j = s + (j + 1) by omega]

theorem forcePlace_shape (ns : List FNode) (offX offY : Rat) (t : Table) :
    ∃ p, forcePlace ns offX offY t = { t with position := p } := by
  unfold forcePlace
  cases ns.find? (fun n => n.id = t.id) with
  | some n => exact ⟨_, rfl⟩
  | none => exact ⟨t.position, rfl⟩

theorem forceMap_get? (ns : List FNode) (ox oy : Rat) (l : List Table) (i : Nat) (t : Table)
    (ht : l.get? i = some t) :
    ∃ p, (l.map (forcePlace ns ox oy)).get? i = some { t with position := p } := by
  obtain ⟨p, hp⟩ := forcePlace_shape ns ox oy t
  refine ⟨p, ?_⟩
  simp only [List.get?_map, ht, Option.map_some', hp]

/-- **C9.** For every list of tables, relationships, algorithm choice and
(merged) option record, and for *every* behaviour of the numeric primitives
(`Math.sqrt`/`cos`/`sin`/`atan2`/`random` are universally quantified
oracles), `AutoLayout.layoutTables` returns exactly `tables.length` entries,
and the `i`-th entry is the `i`-th input table with at most its `position`
replaced (so `id`, `name`, `columns`, `description` — and `color` — are
preserved, in order).  Positions are rational numbers by construction in this
model. -/
theorem c9_layout_frame (O : MathOracle) (tables : List Table)
    (relationships : List Relationship) (opts : LayoutOptions)
    (_hne : tables ≠ []) :
    (AutoLayout.layoutTables O tables relationships opts).length = tables.length ∧
    ∀ i t, tables.get? i = some t →
      ∃ p, (AutoLayout.layoutTables O tables relationships opts).get? i =
        some { t with position := p } := by
  unfold AutoLayout.layoutTables
  cases opts.algorithm with
  | grid =>
    unfold gridLayout
    refine ⟨mapIdxL_length _ _ _, ?_⟩
    intro i t ht
    simp only [mapIdxL_get?, ht, Option.map_some]
    exact ⟨_, rfl⟩
  | hierarchical =>
    unfold hierarchicalLayout
    refine ⟨List.length_map _ _, ?_⟩
    intro i t ht
    simp only [List.get?_map, ht, Option.map_some]
    exact ⟨_, rfl⟩
  | forceDirected =>
    unfold forceDirectedLayout
    refine ⟨List.length_map _ _, ?_⟩
    intro i t ht
    exact forceMap_get? _ _ _ _ _ t ht
  | circular =>
    unfold circularLayout
    refine ⟨mapIdxL_length _ _ _, ?_⟩
    intro i t ht
    simp only [mapIdxL_get?, ht, Option.map_some]
    exact ⟨_, rfl⟩

def c9Oracle : MathOracle :=
  { sqrt := fun _ => 0, cos := fun _ => 0, sin := fun _ => 0,
    atan2 := fun _ _ => 0, pi := 0, random := fun _ => 0 }

def c9Table : Table :=
  { id := "t9", name := "nine", position := { x := 1, y := 2 },
    columns := [], description := some "d", color := none }

/-- Witness for C9 with the grid algorithm, one table and the zero oracle. -/
theorem c9_layout_frame_witness :
    ([c9Table] : List Table) ≠ [] ∧
    ∃ p, (AutoLayout.layoutTables c9Oracle [c9Table] []
        { DEFAULT_OPTIONS with algorithm := LayoutAlgorithm.grid }).get? 0 =
      some { c9Table with position := p } :=
  ⟨by decide,
   (c9_layout_frame c9Oracle [c9Table] []
      { DEFAULT_OPTIONS with algorithm := LayoutAlgorithm.grid } (by decide)).2
     0 c9Table (by decide)⟩

/-! ### C1: JSON round-trip

The expected result of re-importing an exported schema, stated field by
field.  The `toJ*` injections send the typed schema entities to the loose
imported representation; `expectedRoundTrip` follows the claim's words
("equals `S` modulo ...") so that the theorem exhibits exactly which fields
survive and which do not. -/

def toJFK (fk : ForeignKey) : JForeignKey :=
  { tableId := some (Json.str fk.tableId), columnId := some (Json.str fk.columnId),
    onDelete := fk.onDelete.map Json.str, onUpdate := fk.onUpdate.map Json.str }

def toJC (c : Column) : JColumn :=
  { id := some (Json.str c.id), name := some (Json.str c.name),
    type := some (Json.str c.type), nullable := some (Json.bool c.nullable),
    primaryKey := some (Json.bool c.primaryKey), unique := some (Json.bool c.unique),
    defaultValue := c.defaultValue.map Json.str, description := c.description.map Json.str,
    foreignKey := c.foreignKey.map toJFK }

def toJT (withPos : Bool) (t : Table) : JTable :=
  { id := some (Json.str t.id), name := some (Json.str t.name),
    position := if withPos then posToJson t.position else defaultPosJson,
    description := t.description.map Json.str, columns := t.columns.map toJC }

def toJR (r : Relationship) : JRelationship :=
  { id := some (Json.str r.id), name := r.name.map Json.str,
    sourceTableId := some (Json.str r.sourceTableId),
    sourceColumnId := some (Json.str r.sourceColumnId),
    targetTableId := some (Json.str r.targetTableId),
    targetColumnId := some (Json.str r.targetColumnId),
    type := some (Json.str r.type), onDelete := r.onDelete.map Json.str,
    onUpdate := r.onUpdate.map Json.str }

/-- What re-importing an export of `s` yields: tables, relationships, name,
description and both timestamps survive; the schema `id` comes back as the
schema *name*, and `version` comes back as the envelope string `"1.0.0"`;
with positions omitted every table position is the `{x: 0, y: 0}` default. -/
def expectedRoundTrip (s : Schema) (withPos : Bool) : JSchema :=
  { id := Json.str s.name, name := Json.str s.name,
    description := s.description.map Json.str,
    tables := s.tables.map (toJT withPos), relationships := s.relationships.map toJR,
    createdAt := Json.str s.createdAt, updatedAt := Json.str s.updatedAt,
    version := Json.str "1.0.0" }

theorem jImportColumn_export (c : Column) :
    jImportColumn (columnToJson c) = Except.ok (toJC c) := by
  obtain ⟨id, name, ty, nb, pk, un, dv, fk, ds⟩ := c
  cases dv <;> cases ds <;> rcases fk with _ | ⟨tid, cid, od, ou⟩ <;>
    (try cases od) <;> (try cases ou) <;> rfl

theorem mapExcept_columns (cs : List Column) :
    mapExcept jImportColumn (cs.map columnToJson) = Except.ok (cs.map toJC) := by
  induction cs with
  | nil => rfl
  | cons c rest ih =>
    simp [mapExcept, jImportColumn_export c, ih]

theorem jImportColumns_export (b : Bool) (t : Table) :
    jImportColumns (tableToJson b t) = Except.ok (t.columns.map toJC) := by
  obtain ⟨id, name, pos, cols, ds, color⟩ := t
  cases ds <;> cases b <;> exact mapExcept_columns cols

theorem jImportTable_export (b : Bool) (t : Table) :
    jImportTable (tableToJson b t) = Except.ok (toJT b t) := by
  have h := jImportColumns_export b t
  unfold jImportTable
  rw [h]
  obtain ⟨id, name, pos, cols, ds, color⟩ := t
  cases ds <;> cases b <;> rfl

theorem mapExcept_tables (b : Bool) (ts : List Table) :
    mapExcept jImportTable (ts.map (tableToJson b)) = Except.ok (ts.map (toJT b)) := by
  induction ts with
  | nil => rfl
  | cons t rest ih =>
    simp [mapExcept, jImportTable_export b t, ih]

theorem jImportRelationship_export (r : Relationship) :
    jImportRelationship (relationshipToJson r) = Except.ok (toJR r) := by
  obtain ⟨id, st, sc, tt, tc, ty, nm, od, ou⟩ := r
  cases nm <;> cases od <;> cases ou <;> rfl

theorem mapExcept_rels (rs : List Relationship) :
    mapExcept jImportRelationship (rs.map relationshipToJson) =
      Except.ok (rs.map toJR) := by
  induction rs with
  | nil => rfl
  | cons r rest ih =>
    simp [mapExcept, jImportRelationship_export r, ih]

/-- **C1 (amended).** Exporting and re-importing preserves the tables (with
their positions, when included), relationships, name, description and both
timestamps; the schema `id` is rebuilt from the name and — contrary to the
claim — the `version` field does *not* survive: it comes back as the JSON
envelope's version string `"1.0.0"` regardless of the schema's integer
version.  Exporting with positions omitted yields the documented
`{x: 0, y: 0}` default for every table on re-import. -/
theorem c1_json_roundtrip (s : Schema) (now now2 : String)
    (hname : s.name ≠ "") (hca : s.createdAt ≠ "") (hua : s.updatedAt ≠ "") :
    importFromJSONVal (exportToJSONVal s true now) now2 =
      Except.ok (expectedRoundTrip s true) ∧
    importFromJSONVal (exportToJSONVal s false now) now2 =
      Except.ok (expectedRoundTrip s false) := by
  obtain ⟨sid, sname, sds, stabs, srels, sca, sua, sver⟩ := s
  simp only [Schema.name] at hname
  simp only [Schema.createdAt] at hca
  simp only [Schema.updatedAt] at hua
  constructor <;>
    (cases sds <;>
      simp [importFromJSONVal, importBody, exportToJSONVal, expectedRoundTrip,
            jImportRelationships, jGet, jGetChain, jsOrJson, jTruthy, optStrField,
            List.lookup, mapExcept_tables, mapExcept_rels, hname, hca, hua])

def c1Schema : Schema :=
  { id := "schema_12345", name := "My Schema", description := some "demo",
    tables := [], relationships := [], createdAt := "2024-01-01T00:00:00.000Z",
    updatedAt := "2024-01-02T00:00:00.000Z", version := 4 }

/-- **C1, counterexample.** The claim's equality "modulo `exportedAt` and
generated-ID fields" entails that the integer `version` survives the round
trip; it does not: the re-imported schema's `version` is the envelope string
`"1.0.0"` (`data.version || 1` reads the envelope, not the schema version). -/
theorem c1_counterexample :
    c1Schema.version = 4 ∧
    (importFromJSONVal (exportToJSONVal c1Schema true "E") "N").map (fun j => j.version) =
      Except.ok (Json.str "1.0.0") ∧
    Json.str "1.0.0" ≠ Json.num 4 := by
  refine ⟨by decide, by decide, by decide⟩

def c1WitnessSchema : Schema :=
  { id := "sW", name := "W", description := none,
    tables :=
      [{ id := "tW", name := "wtab", position := { x := 3, y := 4 },
         columns :=
           [{ id := "cW", name := "w_id", type := "integer", nullable := false,
              primaryKey := true, unique := false, defaultValue := some "5",
              foreignKey := some { tableId := "tW", columnId := "cW",
                                   onDelete := some "CASCADE", onUpdate := none },
              description := some "pk" }],
         description := none, color := none }],
    relationships :=
      [{ id := "rW", sourceTableId := "tW", sourceColumnId := "cW",
         targetTableId := "tW", targetColumnId := "cW", type := "one-to-one",
         name := some "self", onDelete := none, onUpdate := some "SET NULL" }],
    createdAt := "2024-03-01T00:00:00.000Z", updatedAt := "2024-03-02T00:00:00.000Z",
    version := 2 }

/-- Witness for C1 on a one-table, one-relationship schema exercising foreign
keys, defaults and descriptions. -/
theorem c1_json_roundtrip_witness :
    c1WitnessSchema.name ≠ "" ∧
    importFromJSONVal (exportToJSONVal c1WitnessSchema true "E") "N" =
      Except.ok (expectedRoundTrip c1WitnessSchema true) ∧
    importFromJSONVal (exportToJSONVal c1WitnessSchema false "E") "N" =
      Except.ok (expectedRoundTrip c1WitnessSchema false) :=
  ⟨by decide,
   (c1_json_roundtrip c1WitnessSchema "E" "N" (by decide) (by decide) (by decide)).1,
   (c1_json_roundtrip c1WitnessSchema "E" "N" (by decide) (by decide) (by decide)).2⟩

/-! ### C10: rejection when the tables array is missing -/

/-- The claim's precondition on a parsed JSON value: the `tables` key is
missing or its value is not an array. -/
def tablesNotArray (j : Json) : Bool :=
  match jGet j "tables" with
  | some (Json.arr _) => false
  | _ => true

/-- **C10 (amended).** For every parsed JSON value other than the literal
`null` whose `tables` key is missing or not an array, `importFromJSON` fails
with exactly `Failed to import JSON: Invalid JSON format: missing tables
array` and no schema is returned; and the rejection is specific to `tables`:
an object carrying only a well-formed `tables` array imports successfully
with the documented defaults (no relationships, name `Imported Schema`,
current-time timestamps, version `1`).  The JSON text `null` parses as
well-formed JSON without a tables array, yet it is rejected with a property
access `TypeError` message instead of the claimed one. -/
theorem c10_missing_tables_rejection (j : Json) (now : String)
    (hnull : j ≠ Json.null) (hta : tablesNotArray j = true) :
    importFromJSONVal j now =
      Except.error "Failed to import JSON: Invalid JSON format: missing tables array" ∧
    (∀ (ts : List Json) (tbs : List JTable),
      mapExcept jImportTable ts = Except.ok tbs →
      importFromJSONVal (Json.obj [("tables", Json.arr ts)]) now =
        Except.ok { id := Json.str "Imported Schema", name := Json.str "Imported Schema",
                    description := none, tables := tbs, relationships := [],
                    createdAt := Json.str now, updatedAt := Json.str now,
                    version := Json.num 1 }) := by
  constructor
  · have hb : importBody j now = Except.error "Invalid JSON format: missing tables array" := by
      unfold importBody
      rw [if_neg hnull]
      unfold tablesNotArray at hta
      rcases h : jGet j "tables" with _ | v
      · rfl
      · rw [h] at hta
        cases v with
        | null => rfl
        | bool b => rfl
        | num q => rfl
        | str s => rfl
        | arr l => simp at hta
        | obj fs => rfl
    unfold importFromJSONVal
    rw [hb]
    rfl
  · intro ts tbs hts
    simp [importFromJSONVal, importBody, jImportRelationships, jGet, jGetChain,
          jsOrJson, List.lookup, hts]

/-- **C10, counterexample.** The JSON text `null` is well-formed JSON with no
tables array, but the import fails with the engine's null-property-access
message, which does not contain `Invalid JSON format: missing tables array`
(the claimed prefix `Failed to import JSON:` is still present). -/
theorem c10_counterexample :
    importFromJSONVal Json.null "N" =
      Except.error ("Failed to import JSON: " ++ nullReadErr "tables") ∧
    containsSub ("Failed to import JSON: " ++ nullReadErr "tables")
      "Invalid JSON format: missing tables array" = false ∧
    startsWithL ("Failed to import JSON: " ++ nullReadErr "tables").toList
      "Failed to import JSON:".toList = true := by
  refine ⟨by decide, by decide, by decide⟩

def c10Json : Json := Json.obj [("tables", Json.str "nope")]

/-- Witness for C10: a `tables` key holding a string is rejected with the
claimed message, and a bare well-formed `tables` array imports with the
defaults. -/
theorem c10_missing_tables_rejection_witness :
    (c10Json ≠ Json.null ∧ tablesNotArray c10Json = true) ∧
    importFromJSONVal c10Json "N" =
      Except.error "Failed to import JSON: Invalid JSON format: missing tables array" ∧
    importFromJSONVal (Json.obj [("tables", Json.arr [])]) "N" =
      Except.ok { id := Json.str "Imported Schema", name := Json.str "Imported Schema",
                  description := none, tables := [], relationships := [],
                  createdAt := Json.str "N", updatedAt := Json.str "N",
                  version := Json.num 1 } := by
  have h := c10_missing_tables_rejection c10Json "N" (by decide) (by decide)
  exact ⟨⟨by decide, by decide⟩, h.1, h.2 [] [] (by decide)⟩

end SchemaCanvas
